import Mathlib

/-!
Verification of the XBlackBox telemetry recorder (DatarefManager + Recorder)
against its natural-language specification.

The embedding models:
* the byte-level view of the recording file (`VFile`, `writeAt`),
* the variable registry (`DatarefManager.cpp`): declarative dataref tables,
  `AddDataref` / `LoadDatarefs` / `ReadCurrentValues`,
* the recording engine (`Recorder.cpp`): `Start` / `Stop` / `Update` /
  `RecordFrame` / `WriteHeader` / `WriteFooter` / `UpdateHeaderWithArrival`,
* airport endpoint detection (`DetectNearestAirport` / `CalculateDistance`)
  over idealized reals.

Modelling conventions:
* C++ `float` values read from the host are modelled by `FVal`
  (a finite rational, NaN, +Inf or -Inf); the IEEE-754 bit encoding of a
  float is an external `codec : FVal → Nat` parameter (the model never
  relies on any property of it, except that the literal `0.0f` encodes as
  bit pattern 0, which is hard-coded where the source writes `0.0f`).
* Consecutive stream writes with no intervening seek are modelled as one
  write of the concatenated bytes.
* Stream health (`ofstream::good()`) at each check point in the source is
  an environment input (`openOk`, `magicOk`, `headerOk`, `fileGood`,
  `footerGood`): the model is the program's behaviour given those oracle
  answers.
* Host dataref reads are environment inputs keyed by dataref name
  (`HostReads`), matching the XPLM read API shape.
* Wall-clock time (`time(nullptr)`), `localtime` success and per-frame
  latency samples are environment inputs.
-/

namespace XBlackBox

/-! ## Little-endian byte serialization -/

/-- `w` little-endian bytes of `v` (modelling the `WriteUIntN` helpers). -/
def leBytes : Nat → Nat → List Nat
  | 0, _ => []
  | w + 1, v => v % 256 :: leBytes w (v / 256)

/-- Two's-complement 32-bit pattern of a C++ `int32_t` (for `WriteInt32`). -/
def u32ofInt (i : Int) : Nat := (i % (2 ^ 32 : Int)).toNat

/-- Bytes of an ASCII string (names and descriptions in this program are ASCII,
so one char is one byte, as in the C++ `write(str.c_str(), len)`). -/
def strBytes (s : String) : List Nat := s.toList.map Char.toNat

/-- A fixed-size `char[n]` buffer holding `l`: truncated to `n` bytes and
NUL-padded up to exactly `n` bytes. -/
def fixedBytes (n : Nat) (l : List Nat) : List Nat :=
  l.take n ++ List.replicate (n - l.length) 0

/-! ## Byte-level file model -/

/-- Overwrite `d` at offset `p` with `bs`, zero-filling any gap and extending
the list when the write runs past the end (ordinary file-write semantics). -/
def writeAt (d : List Nat) (p : Nat) (bs : List Nat) : List Nat :=
  d.take p ++ List.replicate (p - d.length) 0 ++ bs ++ d.drop (p + bs.length)

/-- An open binary file: its byte content and the current write position
(`tellp`/`seekp`). -/
structure VFile where
  data : List Nat
  pos : Nat
deriving DecidableEq

/-- `ofstream::write`: write bytes at the current position, advancing it. -/
def fwrite (f : VFile) (bs : List Nat) : VFile :=
  ⟨writeAt f.data f.pos bs, f.pos + bs.length⟩

/-- `ofstream::seekp`. -/
def fseek (f : VFile) (p : Nat) : VFile := ⟨f.data, p⟩

/-! ## Dataref registry data model (`common.h`, `DatarefManager.h`) -/

/-- `enum class DatarefType` from common.h. -/
inductive DatarefType where
  | Float
  | Int
  | String
deriving DecidableEq

/-- `enum class RecordingLevel { Simple = 1, Normal = 2, Detailed = 3 }`. -/
inductive RecordingLevel where
  | Simple
  | Normal
  | Detailed
deriving DecidableEq

/-- The numeric value of a `RecordingLevel` enumerator. -/
def levelNat : RecordingLevel → Nat
  | .Simple => 1
  | .Normal => 2
  | .Detailed => 3

/-- One `AddDataref` call site: the declarative data
(name, description, type, array size) passed to `AddDataref`. -/
structure DrEntry where
  name : String
  desc : String
  type : DatarefType
  arraySize : Nat
deriving DecidableEq

/-- `struct DatarefDef` (common.h): a registered dataref. `ref` models the
`XPLMDataRef` handle as a presence flag (`true` = non-null handle). -/
structure DatarefDef where
  name : String
  description : String
  type : DatarefType
  arraySize : Nat
  ref : Bool
deriving DecidableEq

/-- The registry state of `DatarefManager`: `m_datarefs` plus the
`m_datarefIndex` name-to-position map (modelled as an association list). -/
structure DrState where
  datarefs : List DatarefDef
  datarefIndex : List (String × Nat)
deriving DecidableEq

/-- The registered definition built from a declarative entry whose host
lookup succeeded. -/
def mkDataref (e : DrEntry) : DatarefDef :=
  ⟨e.name, e.desc, e.type, e.arraySize, true⟩

/-- `DatarefManager::AddDataref`: looks the name up with `XPLMFindDataRef`
(modelled by `avail`); on a null handle it returns without recording
anything; otherwise it appends the definition and indexes it. -/
def addDataref (avail : String → Bool) (st : DrState) (e : DrEntry) : DrState :=
  if avail e.name then
    { datarefs := st.datarefs ++ [mkDataref e],
      datarefIndex := st.datarefIndex ++ [(e.name, st.datarefs.length)] }
  else
    st

/-- Constants from common.h. -/
def MAX_ENGINES : Nat := 8

/-- Constants from common.h. -/
def MAX_BATTERIES : Nat := 8

/-- Constants from common.h. -/
def MAX_GENERATORS : Nat := 8

/-- Constants from common.h. -/
def MAX_LANDING_GEAR : Nat := 10

/-- `LoadBasicDatarefs` (level 1), in call order. -/
def basicEntries : List DrEntry := [
  ⟨"sim/time/total_running_time_sec", "Total running time", .Float, 0⟩,
  ⟨"sim/time/zulu_time_sec", "Zulu time", .Float, 0⟩,
  ⟨"sim/time/local_date_days", "Local date days", .Int, 0⟩,
  ⟨"sim/aircraft/view/acf_descrip", "Aircraft description", .String, 0⟩,
  ⟨"sim/aircraft/view/acf_ICAO", "Aircraft ICAO code", .String, 0⟩,
  ⟨"sim/flightmodel/position/latitude", "Latitude", .Float, 0⟩,
  ⟨"sim/flightmodel/position/longitude", "Longitude", .Float, 0⟩,
  ⟨"sim/flightmodel/position/elevation", "Elevation MSL", .Float, 0⟩,
  ⟨"sim/flightmodel/position/y_agl", "Height AGL", .Float, 0⟩,
  ⟨"sim/flightmodel/position/theta", "Pitch", .Float, 0⟩,
  ⟨"sim/flightmodel/position/phi", "Roll", .Float, 0⟩,
  ⟨"sim/flightmodel/position/psi", "Heading true", .Float, 0⟩,
  ⟨"sim/flightmodel/position/mag_psi", "Heading magnetic", .Float, 0⟩,
  ⟨"sim/flightmodel/position/hpath", "Ground track", .Float, 0⟩,
  ⟨"sim/flightmodel/position/beta", "Sideslip angle", .Float, 0⟩,
  ⟨"sim/flightmodel/position/alpha", "Angle of attack", .Float, 0⟩,
  ⟨"sim/flightmodel/position/indicated_airspeed", "IAS", .Float, 0⟩,
  ⟨"sim/flightmodel/position/true_airspeed", "TAS", .Float, 0⟩,
  ⟨"sim/flightmodel/position/groundspeed", "Ground speed", .Float, 0⟩,
  ⟨"sim/flightmodel/position/vh_ind_fpm", "Vertical speed fpm", .Float, 0⟩,
  ⟨"sim/flightmodel/position/P", "Roll rate", .Float, 0⟩,
  ⟨"sim/flightmodel/position/Q", "Pitch rate", .Float, 0⟩,
  ⟨"sim/flightmodel/position/R", "Yaw rate", .Float, 0⟩,
  ⟨"sim/flightmodel/forces/g_nrml", "G-force normal", .Float, 0⟩,
  ⟨"sim/flightmodel/forces/g_axil", "G-force axial", .Float, 0⟩,
  ⟨"sim/flightmodel/forces/g_side", "G-force side", .Float, 0⟩]

/-- `LoadNormalDatarefs` (level 2 increment), in call order. -/
def normalEntries : List DrEntry := [
  ⟨"sim/joystick/yoke_pitch_ratio", "Yoke pitch", .Float, 0⟩,
  ⟨"sim/joystick/yoke_roll_ratio", "Yoke roll", .Float, 0⟩,
  ⟨"sim/joystick/yoke_heading_ratio", "Rudder pedals", .Float, 0⟩,
  ⟨"sim/flightmodel/controls/parkbrake", "Parking brake", .Float, 0⟩,
  ⟨"sim/flightmodel/controls/ldgbrk", "Landing brake", .Float, 0⟩,
  ⟨"sim/flightmodel/controls/wing1l_ail1def", "Left aileron", .Float, 0⟩,
  ⟨"sim/flightmodel/controls/wing1r_ail1def", "Right aileron", .Float, 0⟩,
  ⟨"sim/flightmodel/controls/hstab1_elv1def", "Elevator", .Float, 0⟩,
  ⟨"sim/flightmodel/controls/vstab1_rud1def", "Rudder", .Float, 0⟩,
  ⟨"sim/flightmodel/controls/flaprqst", "Flap request", .Float, 0⟩,
  ⟨"sim/flightmodel/controls/flaprat", "Flap actual", .Float, 0⟩,
  ⟨"sim/flightmodel/controls/sbrkrqst", "Speedbrake request", .Float, 0⟩,
  ⟨"sim/flightmodel/controls/sbrkrat", "Speedbrake actual", .Float, 0⟩,
  ⟨"sim/flightmodel/controls/gear_request", "Gear request", .Float, 0⟩,
  ⟨"sim/flightmodel/movingparts/gear1def", "Gear 1 deploy", .Float, 0⟩,
  ⟨"sim/flightmodel/movingparts/gear2def", "Gear 2 deploy", .Float, 0⟩,
  ⟨"sim/flightmodel/movingparts/gear3def", "Gear 3 deploy", .Float, 0⟩,
  ⟨"sim/flightmodel2/gear/tire_rotation_speed_rad_sec", "Tire rotation speed", .Float, MAX_LANDING_GEAR⟩,
  ⟨"sim/flightmodel/engine/ENGN_thro", "Throttle", .Float, MAX_ENGINES⟩,
  ⟨"sim/flightmodel/engine/ENGN_thro_use", "Throttle actual", .Float, MAX_ENGINES⟩,
  ⟨"sim/flightmodel/engine/ENGN_mixt", "Mixture", .Float, MAX_ENGINES⟩,
  ⟨"sim/flightmodel/engine/ENGN_prop", "Prop pitch", .Float, MAX_ENGINES⟩,
  ⟨"sim/flightmodel/engine/ENGN_running", "Engine running", .Int, MAX_ENGINES⟩,
  ⟨"sim/flightmodel/engine/ENGN_N1_", "N1", .Float, MAX_ENGINES⟩,
  ⟨"sim/flightmodel/engine/ENGN_N2_", "N2", .Float, MAX_ENGINES⟩,
  ⟨"sim/flightmodel/engine/ENGN_FF_", "Fuel flow", .Float, MAX_ENGINES⟩,
  ⟨"sim/flightmodel/engine/ENGN_EGT", "EGT", .Float, MAX_ENGINES⟩,
  ⟨"sim/flightmodel/engine/ENGN_ITT", "ITT", .Float, MAX_ENGINES⟩,
  ⟨"sim/flightmodel/engine/ENGN_CHT", "CHT", .Float, MAX_ENGINES⟩,
  ⟨"sim/flightmodel/engine/ENGN_TRQ", "Torque", .Float, MAX_ENGINES⟩,
  ⟨"sim/flightmodel/weight/m_total", "Total weight", .Float, 0⟩,
  ⟨"sim/flightmodel/weight/m_fuel_total", "Total fuel weight", .Float, 0⟩,
  ⟨"sim/aircraft/weight/acf_m_fuel_tot", "Fuel quantity total", .Float, 0⟩,
  ⟨"sim/flightmodel/failures/onground_any", "On ground", .Int, 0⟩,
  ⟨"sim/flightmodel2/gear/on_ground", "Gear on ground", .Int, MAX_LANDING_GEAR⟩]

set_option maxHeartbeats 1600000 in
/-- `LoadDetailedDatarefs` (level 3 increment), in call order. -/
def detailedEntries : List DrEntry := [
  ⟨"sim/cockpit/autopilot/autopilot_state", "Autopilot state", .Int, 0⟩,
  ⟨"sim/cockpit/autopilot/autopilot_mode", "Autopilot mode", .Int, 0⟩,
  ⟨"sim/cockpit/autopilot/altitude", "AP altitude target", .Float, 0⟩,
  ⟨"sim/cockpit/autopilot/heading", "AP heading target", .Float, 0⟩,
  ⟨"sim/cockpit/autopilot/airspeed", "AP airspeed target", .Float, 0⟩,
  ⟨"sim/cockpit/autopilot/vertical_velocity", "AP VS target", .Float, 0⟩,
  ⟨"sim/cockpit/radios/nav1_freq_hz", "NAV1 frequency", .Int, 0⟩,
  ⟨"sim/cockpit/radios/nav2_freq_hz", "NAV2 frequency", .Int, 0⟩,
  ⟨"sim/cockpit/radios/com1_freq_hz", "COM1 frequency", .Int, 0⟩,
  ⟨"sim/cockpit/radios/com2_freq_hz", "COM2 frequency", .Int, 0⟩,
  ⟨"sim/cockpit/radios/nav1_dme_dist_m", "NAV1 DME distance", .Float, 0⟩,
  ⟨"sim/cockpit/radios/gps_dme_dist_m", "GPS distance", .Float, 0⟩,
  ⟨"sim/cockpit2/pressurization/indicators/cabin_altitude_ft", "Cabin altitude", .Float, 0⟩,
  ⟨"sim/cockpit2/pressurization/indicators/cabin_vvi_fpm", "Cabin VS", .Float, 0⟩,
  ⟨"sim/cockpit2/temperature/outside_air_temp_degc", "OAT", .Float, 0⟩,
  ⟨"sim/weather/wind_speed_kt", "Wind speed", .Float, 3⟩,
  ⟨"sim/weather/wind_direction_degt", "Wind direction", .Float, 3⟩,
  ⟨"sim/weather/barometer_sealevel_inhg", "Barometer sea level", .Float, 0⟩,
  ⟨"sim/cockpit2/electrical/battery_voltage_actual_volts", "Battery voltage", .Float, MAX_BATTERIES⟩,
  ⟨"sim/cockpit2/electrical/battery_amps", "Battery amps", .Float, MAX_BATTERIES⟩,
  ⟨"sim/cockpit2/electrical/generator_on", "Generator on", .Int, MAX_GENERATORS⟩,
  ⟨"sim/cockpit2/hydraulics/indicators/hydraulic_press_1", "Hydraulic pressure 1", .Float, 0⟩,
  ⟨"sim/cockpit2/hydraulics/indicators/hydraulic_press_2", "Hydraulic pressure 2", .Float, 0⟩,
  ⟨"sim/flightmodel/engine/ENGN_MPR", "Manifold pressure", .Float, MAX_ENGINES⟩,
  ⟨"sim/flightmodel/engine/ENGN_oil_press", "Oil pressure", .Float, MAX_ENGINES⟩,
  ⟨"sim/flightmodel/engine/ENGN_oil_temp", "Oil temperature", .Float, MAX_ENGINES⟩,
  ⟨"sim/flightmodel/engine/ENGN_cowl", "Cowl flaps", .Float, MAX_ENGINES⟩,
  ⟨"sim/cockpit/autopilot/flight_director_mode", "FD mode", .Int, 0⟩,
  ⟨"sim/cockpit/autopilot/flight_director_pitch", "FD pitch", .Float, 0⟩,
  ⟨"sim/cockpit/autopilot/flight_director_roll", "FD roll", .Float, 0⟩,
  ⟨"sim/cockpit2/annunciators/master_warning", "Master warning", .Int, 0⟩,
  ⟨"sim/cockpit2/annunciators/master_caution", "Master caution", .Int, 0⟩,
  ⟨"sim/cockpit2/annunciators/stall_warning", "Stall warning", .Int, 0⟩,
  ⟨"sim/cockpit2/annunciators/low_vacuum", "Low vacuum", .Int, 0⟩,
  ⟨"sim/cockpit2/annunciators/low_voltage", "Low voltage", .Int, 0⟩,
  ⟨"sim/cockpit2/annunciators/fuel_quantity", "Fuel quantity warning", .Int, 0⟩,
  ⟨"sim/cockpit2/ice/ice_frame_anti_ice_on", "Frame anti-ice", .Int, 0⟩,
  ⟨"sim/cockpit2/ice/ice_inlet_heat_on", "Inlet heat", .Int, MAX_ENGINES⟩,
  ⟨"sim/cockpit2/ice/ice_pitot_heat_on", "Pitot heat", .Int, 2⟩,
  ⟨"sim/flightmodel/failures/rel_ice_frame", "Frame ice", .Float, 0⟩,
  ⟨"sim/flightmodel/failures/rel_ice_inlet", "Inlet ice", .Float, MAX_ENGINES⟩,
  ⟨"sim/flightmodel/failures/rel_ice_pitot", "Pitot ice", .Float, 2⟩,
  ⟨"sim/flightmodel/forces/fside_aero", "Side force", .Float, 0⟩,
  ⟨"sim/flightmodel/forces/fnrml_aero", "Normal force", .Float, 0⟩,
  ⟨"sim/flightmodel/forces/faxil_aero", "Axial force", .Float, 0⟩,
  ⟨"sim/flightmodel/forces/L_total", "Roll moment", .Float, 0⟩,
  ⟨"sim/flightmodel/forces/M_total", "Pitch moment", .Float, 0⟩,
  ⟨"sim/flightmodel/forces/N_total", "Yaw moment", .Float, 0⟩,
  ⟨"sim/cockpit2/switches/battery_on", "Battery switches", .Int, MAX_BATTERIES⟩,
  ⟨"sim/cockpit2/switches/avionics_power_on", "Avionics master switch", .Int, 0⟩,
  ⟨"sim/cockpit2/switches/landing_lights_on", "Landing lights switch", .Int, 0⟩,
  ⟨"sim/cockpit2/switches/beacon_on", "Beacon light switch", .Int, 0⟩,
  ⟨"sim/cockpit2/switches/strobe_lights_on", "Strobe lights switch", .Int, 0⟩,
  ⟨"sim/cockpit2/switches/navigation_lights_on", "Nav lights switch", .Int, 0⟩,
  ⟨"sim/cockpit2/switches/taxi_light_on", "Taxi light switch", .Int, 0⟩,
  ⟨"sim/cockpit2/tcas/indicators/tcas_num_acf", "Number of TCAS targets", .Int, 0⟩,
  ⟨"sim/cockpit2/autopilot/fms_vnav", "FMS VNAV mode", .Int, 0⟩,
  ⟨"sim/cockpit2/autopilot/approach_status", "Approach status: 0=off 1=armed 2=captured", .Int, 0⟩,
  ⟨"sim/cockpit2/autopilot/nav_status", "Nav status: 0=off 1=armed 2=captured", .Int, 0⟩,
  ⟨"sim/operation/failures/rel_servo_ailn", "Autopilot servo failed - ailerons", .Int, 0⟩,
  ⟨"sim/operation/failures/rel_servo_elev", "Autopilot servo failed - elevators", .Int, 0⟩,
  ⟨"sim/operation/failures/rel_servo_rudd", "Autopilot servo failed - rudder", .Int, 0⟩,
  ⟨"sim/operation/failures/rel_ss_dgy", "Directional gyro failure", .Int, 0⟩,
  ⟨"sim/operation/failures/rel_ss_ahz", "Artificial horizon failure", .Int, 0⟩,
  ⟨"sim/operation/failures/rel_ss_asi", "Airspeed indicator failure", .Int, 0⟩,
  ⟨"sim/operation/failures/rel_ss_alt", "Altimeter failure", .Int, 0⟩,
  ⟨"sim/flightmodel2/engines/thrust_reverser_deploy_ratio", "Thrust reverser position", .Float, MAX_ENGINES⟩,
  ⟨"sim/flightmodel2/engines/engine_is_burning_fuel", "Engine burning fuel status", .Int, MAX_ENGINES⟩,
  ⟨"sim/cockpit2/controls/elevator_trim", "Elevator trim", .Float, 0⟩,
  ⟨"sim/cockpit2/controls/aileron_trim", "Aileron trim", .Float, 0⟩,
  ⟨"sim/cockpit2/controls/rudder_trim", "Rudder trim", .Float, 0⟩,
  ⟨"sim/cockpit2/radios/indicators/gps_dme_distance_nm", "GPS DME distance", .Float, 0⟩,
  ⟨"sim/cockpit2/radios/indicators/gps_hdef_dots_pilot", "GPS HDEF dots pilot", .Float, 0⟩,
  ⟨"sim/cockpit2/radios/actuators/gps_course_degtm", "GPS course", .Float, 0⟩,
  ⟨"sim/cockpit2/radios/indicators/gps_vdef_dots_pilot", "GPS VDEF dots pilot", .Float, 0⟩,
  ⟨"sim/flightmodel/weight/m_fixed", "Payload weight", .Float, 0⟩,
  ⟨"sim/flightmodel/weight/m_jettison", "Jettisoned weight", .Float, 0⟩,
  ⟨"sim/flightmodel/misc/cgz_ref_to_default", "CG position longitudinal", .Float, 0⟩,
  ⟨"sim/flightmodel/position/local_vx", "Local velocity X", .Float, 0⟩,
  ⟨"sim/flightmodel/position/local_vy", "Local velocity Y", .Float, 0⟩,
  ⟨"sim/flightmodel/position/local_vz", "Local velocity Z", .Float, 0⟩,
  ⟨"sim/flightmodel2/position/mag_psi", "Magnetic heading", .Float, 0⟩,
  ⟨"sim/time/is_in_replay", "In replay mode", .Int, 0⟩,
  ⟨"sim/weather/visibility_reported_m", "Visibility in meters", .Float, 0⟩,
  ⟨"sim/weather/cloud_base_msl_m", "Cloud base MSL", .Float, 3⟩,
  ⟨"sim/weather/cloud_coverage", "Cloud coverage", .Float, 3⟩,
  ⟨"sim/weather/cloud_type", "Cloud type", .Int, 3⟩,
  ⟨"sim/weather/temperature_sealevel_c", "Temperature at sea level", .Float, 0⟩,
  ⟨"sim/weather/temperature_ambient_c", "Ambient temperature", .Float, 0⟩,
  ⟨"sim/cockpit2/pressurization/actuators/safety_valve", "Safety valve position", .Float, 0⟩,
  ⟨"sim/cockpit2/pressurization/actuators/dump_all", "Dump all valve", .Float, 0⟩,
  ⟨"sim/flightmodel2/engines/fuel_flow_kg_sec", "Fuel flow kg/sec", .Float, MAX_ENGINES⟩,
  ⟨"sim/flightmodel2/engines/nacelle_temp_c", "Nacelle temperature", .Float, MAX_ENGINES⟩]

/-- The declarative entry sequence processed by `LoadDatarefs` at a level:
basic always, then the normal increment for level >= 2, then the detailed
increment for level >= 3 (recording levels are cumulative). -/
def entriesForLevel (level : RecordingLevel) : List DrEntry :=
  basicEntries ++
    (if 2 ≤ levelNat level then normalEntries else []) ++
    (if 3 ≤ levelNat level then detailedEntries else [])

/-- The declarative entries a higher detail level processes beyond a lower
one: the increment between the two levels' declarative sequences. -/
def incrementEntries : RecordingLevel → RecordingLevel → List DrEntry
  | .Simple, .Normal => normalEntries
  | .Simple, .Detailed => normalEntries ++ detailedEntries
  | .Normal, .Detailed => detailedEntries
  | _, _ => []

/-- `DatarefManager::LoadDatarefs` starting from a cleared registry
(`Reload` clears, `Init` starts empty): every declarative entry goes through
`AddDataref` in order. The `reserve` calls and the cached value counts have
no observable effect and are not modelled. -/
def loadDatarefs (level : RecordingLevel) (avail : String → Bool) : DrState :=
  (entriesForLevel level).foldl (addDataref avail) ⟨[], []⟩

/-- Names of the registered datarefs for a level under a host availability. -/
def drNames (level : RecordingLevel) (avail : String → Bool) : List String :=
  (loadDatarefs level avail).datarefs.map (·.name)

/-! ## Host float values and snapshots (`ReadCurrentValues`) -/

/-- A C++ `float` as read from the host: finite (value as an exact rational)
or one of the non-finite classes that `std::isnan`/`std::isinf` detect. -/
inductive FVal where
  | fin (q : ℚ)
  | nan
  | inf
  | ninf
deriving DecidableEq

/-- `!(isnan v) && !(isinf v)`. -/
def isFinite : FVal → Bool
  | .fin _ => true
  | _ => false

/-- The sanitization in the scalar-float branch of `ReadCurrentValues`:
`if (std::isnan(value) || std::isinf(value)) value = 0.0f;`. -/
def sanitizeF : FVal → FVal
  | .fin q => .fin q
  | _ => .fin 0

/-- The host read API consumed by `ReadCurrentValues`, keyed by dataref name.
`readFloatArr`/`readIntArr` return `none` when `XPLMGetDatavf`/`vi` reports
count 0 at that index; `readText` returns `none` when `XPLMGetDatab` reports
a length outside `(0, 511]`. -/
structure HostReads where
  readFloat : String → FVal
  readInt : String → Int
  readFloatArr : String → Nat → Option FVal
  readIntArr : String → Nat → Option Int
  readText : String → Option String

/-- The three parallel value sequences `m_floatValues` / `m_intValues` /
`m_stringValues` produced by one `ReadCurrentValues` pass. -/
structure Snapshot where
  floats : List FVal
  ints : List Int
  strs : List String
deriving DecidableEq

/-- The values one dataref contributes in one `ReadCurrentValues` pass:
absent handle -> kind-appropriate zeros (one `""` for a string); array ->
per-index reads with 0 fallback, `float` elements stored unsanitized;
scalar -> sanitized float / raw int / bounded text read. -/
def readOne (r : HostReads) (dr : DatarefDef) : Snapshot :=
  if dr.ref = false then
    match dr.type with
    | .Float => ⟨List.replicate (if 0 < dr.arraySize then dr.arraySize else 1) (.fin 0), [], []⟩
    | .Int => ⟨[], List.replicate (if 0 < dr.arraySize then dr.arraySize else 1) 0, []⟩
    | .String => ⟨[], [], [""]⟩
  else if 0 < dr.arraySize then
    match dr.type with
    | .Float => ⟨(List.range dr.arraySize).map (fun i => (r.readFloatArr dr.name i).getD (.fin 0)), [], []⟩
    | .Int => ⟨[], (List.range dr.arraySize).map (fun i => (r.readIntArr dr.name i).getD 0), []⟩
    | .String => ⟨[], [], []⟩
  else
    match dr.type with
    | .Float => ⟨[sanitizeF (r.readFloat dr.name)], [], []⟩
    | .Int => ⟨[], [r.readInt dr.name], []⟩
    | .String => ⟨[], [], [(r.readText dr.name).getD ""]⟩

/-- `DatarefManager::ReadCurrentValues`: clear the three value vectors, then
walk the definitions in registration order appending each one's values. -/
def readCurrentValues (r : HostReads) : List DatarefDef → Snapshot
  | [] => ⟨[], [], []⟩
  | dr :: rest =>
    let h := readOne r dr
    let t := readCurrentValues r rest
    ⟨h.floats ++ t.floats, h.ints ++ t.ints, h.strs ++ t.strs⟩

/-! ## Recorder data model (`Recorder.h`) -/

/-- `struct AirportInfo` (byte-level view used by the file writer): the
`char[8]` / `char[256]` buffers as byte lists, the `float` coordinates as
their 32-bit IEEE patterns, and the detection flag. -/
structure AirportInfo where
  icao : List Nat
  name : List Nat
  latBits : Nat
  lonBits : Nat
  valid : Bool
deriving DecidableEq

/-- Default-constructed `AirportInfo`: zeroed buffers and coordinates (the
pattern of `0.0f` is 0), not valid. -/
def emptyAirport : AirportInfo :=
  ⟨List.replicate 8 0, List.replicate 256 0, 0, 0, false⟩

/-- The `Recorder` member state. `file` is the open `m_currentFile` handle
(`none` = no open file); `disk` is the on-disk content of the last closed
recording file (observability of the written artifact; the source closes
the `ofstream` and the file persists on disk). Simulated times and the
confirmation timer are exact rationals. The wall-clock duration and the
string `m_currentFilePath` play no role in any claim and are not modelled. -/
structure RecState where
  isRecording : Bool
  file : Option VFile
  disk : Option VFile
  recordingStartTime : Nat
  lastRecordTime : ℚ
  lastUpdateTime : ℚ
  autoStopTimer : ℚ
  recordCount : Nat
  bytesWritten : Nat
  departure : AirportInfo
  arrival : AirportInfo
  totalRecordTime : ℚ
  perfSampleCount : Nat
  averageRecordTime : ℚ
  maxRecordTime : ℚ
deriving DecidableEq

/-- The configuration the Recorder reads from `Settings`. `interval` is the
recording interval as an exact rational, `intervalBits` its float bit
pattern (written verbatim into the header). The auto start/stop condition
and thresholds are not modelled directly: `CheckAutoStartCondition` /
`CheckAutoStopCondition` evaluate host datarefs, and their boolean results
are per-tick environment inputs. -/
structure RecCfg where
  level : RecordingLevel
  interval : ℚ
  intervalBits : Nat
  autoMode : Bool
  autoStopDelay : ℚ

/-- Environment of one `Start()` call: `localtime` success, `time(nullptr)`,
file-open success, availability of the lat/lon datarefs, the result of
departure-airport detection at the current position, and the stream-health
answers at the magic-write check and the post-header check. -/
structure StartEnv where
  localtimeOk : Bool
  now : Nat
  openOk : Bool
  posRefsOk : Bool
  depDetect : AirportInfo
  magicOk : Bool
  headerOk : Bool

/-- Environment of one `Stop()` call: availability of the lat/lon datarefs,
the result of arrival-airport detection, stream health at the footer
write, and `time(nullptr)` at the footer. -/
structure StopEnv where
  posRefsOk : Bool
  arrDetect : AirportInfo
  footerGood : Bool
  endTime : Nat

/-- Environment of one `Update(dt)` tick: availability of the cached time
dataref, the simulation clock value, the evaluated auto start/stop
predicates, the environments for a nested `Start`/`Stop`, stream health at
the `RecordFrame` entry check, the host reads for the snapshot, and the
measured per-frame latency sample. -/
structure TickEnv where
  timeRefOk : Bool
  simTime : ℚ
  autoStartSat : Bool
  autoStopSat : Bool
  startEnv : StartEnv
  stopEnv : StopEnv
  fileGood : Bool
  reads : HostReads
  recordTime : ℚ

/-! ## Binary encoders (`WriteHeader` / `WriteFooter` / frame layout) -/

/-- `kindCode`: 0 = float, 1 = int, 2 = string. -/
def typeCode : DatarefType → Nat
  | .Float => 0
  | .Int => 1
  | .String => 2

/-- One variable-table entry in the header: u16 name length, name bytes,
u8 type code, u8 array size. Entries with names longer than 65535 bytes are
skipped (`continue` in the source). -/
def entryBytes (dr : DatarefDef) : List Nat :=
  if 65535 < dr.name.length then []
  else
    leBytes 2 dr.name.length ++ strBytes dr.name ++
      leBytes 1 (typeCode dr.type) ++ leBytes 1 dr.arraySize

/-- The header bytes written by `WriteHeader`: magic "XFDR", u16 version 2,
u8 level, f32 interval, u64 start timestamp, departure block
(8-byte ICAO, f32 lat, f32 lon, 256-byte name), empty arrival placeholder
block, u16 dataref count, then the variable table. -/
def headerBytes (level : RecordingLevel) (intervalBits : Nat) (startTime : Nat)
    (dep : AirportInfo) (defs : List DatarefDef) : List Nat :=
  [88, 70, 68, 82] ++
  leBytes 2 2 ++
  leBytes 1 (levelNat level) ++
  leBytes 4 intervalBits ++
  leBytes 8 startTime ++
  fixedBytes 8 dep.icao ++
  leBytes 4 dep.latBits ++
  leBytes 4 dep.lonBits ++
  fixedBytes 256 dep.name ++
  List.replicate 8 0 ++
  leBytes 4 0 ++
  leBytes 4 0 ++
  List.replicate 256 0 ++
  leBytes 2 defs.length ++
  defs.flatMap entryBytes

/-- The footer bytes written by `WriteFooter`: marker "ENDR", u32 record
count, u64 end timestamp. -/
def footerBytes (recordCount : Nat) (endTime : Nat) : List Nat :=
  [69, 78, 68, 82] ++ leBytes 4 recordCount ++ leBytes 8 endTime

/-- `WriteString`: u8 length (clamped to 255) then that many bytes. -/
def strFrameBytes (s : String) : List Nat :=
  let len := min s.length 255
  leBytes 1 len ++ (strBytes s).take len

/-- The per-definition value bytes of one frame, mirroring the write loop in
`RecordFrame`: values are consumed from the three snapshot lists by running
indices; an out-of-bounds index writes the zero value (the source's safety
fallback; the source does not advance the index then, but once an index is
out of bounds it stays out of bounds, so the bytes agree). Array entries of
string type write nothing (no such case in the source loop). -/
def writeVals (codec : FVal → Nat) (floats : List FVal) (ints : List Int)
    (strs : List String) :
    List DatarefDef → Nat → Nat → Nat → List Nat
  | [], _, _, _ => []
  | dr :: rest, fi, ii, si =>
    if 0 < dr.arraySize then
      let chunk :=
        match dr.type with
        | .Float => (List.range dr.arraySize).flatMap
            (fun k => leBytes 4 (codec (floats.getD (fi + k) (.fin 0))))
        | .Int => (List.range dr.arraySize).flatMap
            (fun k => leBytes 4 (u32ofInt (ints.getD (ii + k) 0)))
        | .String => []
      let fi' := fi + (if dr.type = .Float then dr.arraySize else 0)
      let ii' := ii + (if dr.type = .Int then dr.arraySize else 0)
      chunk ++ writeVals codec floats ints strs rest fi' ii' si
    else
      match dr.type with
      | .Float => leBytes 4 (codec (floats.getD fi (.fin 0))) ++
          writeVals codec floats ints strs rest (fi + 1) ii si
      | .Int => leBytes 4 (u32ofInt (ints.getD ii 0)) ++
          writeVals codec floats ints strs rest fi (ii + 1) si
      | .String => strFrameBytes (strs.getD si "") ++
          writeVals codec floats ints strs rest fi ii (si + 1)

/-- One frame's bytes: "DATA" marker, f32 timestamp (the raw simulation
clock, or `0.0f` when the time dataref is unavailable), then the values in
registration order. -/
def frameBytes (codec : FVal → Nat) (defs : List DatarefDef) (timeRefOk : Bool)
    (t : ℚ) (snap : Snapshot) : List Nat :=
  [68, 65, 84, 65] ++
  leBytes 4 (codec (if timeRefOk then .fin t else .fin 0)) ++
  writeVals codec snap.floats snap.ints snap.strs defs 0 0 0

/-! ## Recorder operations -/

/-- `Recorder::UpdateHeaderWithArrival`: save the write position, seek to the
fixed arrival offset 291, overwrite the 272-byte arrival block (8-byte ICAO,
f32 lat, f32 lon, 256-byte name), restore the position. `m_bytesWritten` is
deliberately not touched by the source here. -/
def patchArrival (arr : AirportInfo) (f : VFile) : VFile :=
  let saved := f.pos
  let f1 := fwrite (fseek f 291)
    (fixedBytes 8 arr.icao ++ leBytes 4 arr.latBits ++ leBytes 4 arr.lonBits ++
      fixedBytes 256 arr.name)
  fseek f1 saved

/-- The arrival block as laid out by `UpdateHeaderWithArrival`. -/
def arrivalBlock (arr : AirportInfo) : List Nat :=
  fixedBytes 8 arr.icao ++ leBytes 4 arr.latBits ++ leBytes 4 arr.lonBits ++
    fixedBytes 256 arr.name

/-- `Recorder::Start`. Returns the new state and the boolean result.
Failure paths: already recording; `localtime` failure; file-open failure
(handle reset); stream bad at the magic-number check inside `WriteHeader`
(nothing written or counted, file closed); stream bad at the post-header
check (header bytes already counted into `m_bytesWritten` by the write
helpers, file closed). On success the session counters, the auto-stop
timer and the performance accumulators are reset — `m_bytesWritten` and
`m_recordCount` are reset to 0 only here, after the header was written.
Note that `WriteHeader` serializes the stale `m_recordingStartTime` into
the header's startTimestamp field: the current `time(nullptr)` is assigned
to `m_recordingStartTime` only after the header has been written. -/
def startR (cfg : RecCfg) (defs : List DatarefDef) (env : StartEnv)
    (st : RecState) : RecState × Bool :=
  if st.isRecording then (st, false)
  else if env.localtimeOk = false then (st, false)
  else if env.openOk = false then ({ st with file := none }, false)
  else
    let st1 := if env.posRefsOk then { st with departure := env.depDetect } else st
    if env.magicOk = false then
      ({ st1 with file := none, disk := some ⟨[], 0⟩ }, false)
    else
      let hdr := headerBytes cfg.level cfg.intervalBits st1.recordingStartTime st1.departure defs
      let f := fwrite ⟨[], 0⟩ hdr
      let st2 := { st1 with file := some f,
                            bytesWritten := st1.bytesWritten + hdr.length }
      if env.headerOk = false then
        ({ st2 with file := none, disk := some f }, false)
      else
        ({ st2 with isRecording := true,
                    recordingStartTime := env.now,
                    lastRecordTime := 0,
                    recordCount := 0,
                    bytesWritten := 0,
                    autoStopTimer := 0,
                    disk := none,
                    totalRecordTime := 0,
                    perfSampleCount := 0,
                    averageRecordTime := 0,
                    maxRecordTime := 0 }, true)

/-- `Recorder::Stop`. Returns the new state and the boolean result. When
recording: detect the arrival airport (if the position datarefs exist),
flush (no effect on bytes), patch the header if an arrival was detected,
write the footer if the stream is healthy, close the file (its content
persists as `disk`) and leave the Recording state. Always returns true
when it was recording, false otherwise. -/
def stopR (env : StopEnv) (st : RecState) : RecState × Bool :=
  if st.isRecording = false then (st, false)
  else
    let st1 := if env.posRefsOk then { st with arrival := env.arrDetect } else st
    let st2 :=
      if st1.arrival.valid then
        match st1.file with
        | some f => { st1 with file := some (patchArrival st1.arrival f) }
        | none => st1
      else st1
    let st3 :=
      if env.footerGood then
        match st2.file with
        | some f =>
          let fb := footerBytes st2.recordCount env.endTime
          { st2 with file := some (fwrite f fb),
                     bytesWritten := st2.bytesWritten + fb.length }
        | none => st2
      else st2
    let st4 :=
      match st3.file with
      | some f => { st3 with file := none, disk := some f }
      | none => st3
    ({ st4 with isRecording := false }, true)

/-- `Recorder::RecordFrame`. Returns the new state and the number of `Stop()`
calls made (1 exactly when the stream was found bad). On a healthy stream:
take the snapshot, append the frame bytes, bump `m_recordCount` and the
performance accumulators. The periodic flush does not change file content
and is not modelled. -/
def recordFrame (codec : FVal → Nat) (defs : List DatarefDef) (env : TickEnv)
    (st : RecState) : RecState × Nat :=
  match st.file with
  | none => (st, 0)
  | some f =>
    if env.fileGood = false then ((stopR env.stopEnv st).1, 1)
    else
      let snap := readCurrentValues env.reads defs
      let fb := frameBytes codec defs env.timeRefOk env.simTime snap
      let total := st.totalRecordTime + env.recordTime
      let cnt := st.perfSampleCount + 1
      ({ st with file := some (fwrite f fb),
                 bytesWritten := st.bytesWritten + fb.length,
                 recordCount := st.recordCount + 1,
                 totalRecordTime := total,
                 perfSampleCount := cnt,
                 averageRecordTime := total / (cnt : ℚ),
                 maxRecordTime := max st.maxRecordTime env.recordTime }, 0)

/-- The auto-start block of `Update`: when auto mode is on and not recording,
evaluate the start predicate and `Start()` on it; report whether `Update`
must return early (still not recording). -/
def autoStartStep (cfg : RecCfg) (defs : List DatarefDef) (env : TickEnv)
    (st : RecState) : RecState × Bool :=
  if cfg.autoMode && !st.isRecording then
    let st' := if env.autoStartSat then (startR cfg defs env.startEnv st).1 else st
    (st', !st'.isRecording)
  else (st, false)

/-- The auto-stop block of `Update`: when auto mode is on and recording, a
satisfied stop predicate accumulates `dt` into the confirmation timer and
calls `Stop()` once the timer reaches the configured delay (reporting that
`Update` returns); an unsatisfied predicate resets the timer to zero. -/
def autoStopStep (cfg : RecCfg) (dt : ℚ) (env : TickEnv) (st : RecState) :
    RecState × Bool :=
  if cfg.autoMode && st.isRecording then
    if env.autoStopSat then
      let tm := st.autoStopTimer + dt
      if cfg.autoStopDelay ≤ tm then
        ((stopR env.stopEnv { st with autoStopTimer := tm }).1, true)
      else ({ st with autoStopTimer := tm }, false)
    else ({ st with autoStopTimer := 0 }, false)
  else (st, false)

/-- The recording block of `Update`: when recording and one interval of
simulated time has elapsed since the last sample, record a frame and move
`m_lastRecordTime` to the current simulation time. -/
def recordStep (codec : FVal → Nat) (cfg : RecCfg) (defs : List DatarefDef)
    (t : ℚ) (env : TickEnv) (st : RecState) : RecState × Nat :=
  if st.isRecording then
    if cfg.interval ≤ t - st.lastRecordTime then
      let r := recordFrame codec defs env st
      ({ r.1 with lastRecordTime := t }, r.2)
    else (st, 0)
  else (st, 0)

/-- `Recorder::Update(dt)`. Returns the new state and the number of `Stop()`
calls made during the tick (0 or 1). Early exits: idle with auto mode off;
time dataref missing. Otherwise: cache the simulation time into
`m_lastUpdateTime`, run the auto-start block (early return if it leaves the
engine idle), the auto-stop block (return after a confirmed `Stop()`), then
the recording block. -/
def updateR (codec : FVal → Nat) (cfg : RecCfg) (defs : List DatarefDef)
    (dt : ℚ) (env : TickEnv) (st : RecState) : RecState × Nat :=
  if !st.isRecording && !cfg.autoMode then (st, 0)
  else if env.timeRefOk = false then (st, 0)
  else
    let t := env.simTime
    let st1 := { st with lastUpdateTime := t }
    let a := autoStartStep cfg defs env st1
    if a.2 then (a.1, 0)
    else
      let b := autoStopStep cfg dt env a.1
      if b.2 then (b.1, 1)
      else recordStep codec cfg defs t env b.1

/-- A sequence of `Update` ticks: the final state and the total number of
`Stop()` calls. -/
def runTicks (codec : FVal → Nat) (cfg : RecCfg) (defs : List DatarefDef) :
    List (ℚ × TickEnv) → RecState → RecState × Nat
  | [], st => (st, 0)
  | (dt, e) :: rest, st =>
    let r := updateR codec cfg defs dt e st
    let r' := runTicks codec cfg defs rest r.1
    (r'.1, r.2 + r'.2)

/-! ## Endpoint detection (`DetectNearestAirport` / `CalculateDistance`)

The geometry is modelled over idealized reals (the C++ computes with
`float`; the trigonometric structure of the haversine formula is what the
specification claims). -/

noncomputable section
open scoped Classical

/-- The data `XPLMGetNavAidInfo` returns for a found navaid (restricted to
airport entries by the query): coordinates, ID and name. -/
structure NavAidInfo where
  lat : ℝ
  lon : ℝ
  navID : String
  name : String

/-- `struct AirportInfo` in its semantic (real-coordinate) view, used to
state the endpoint-detection claim. -/
structure AirportInfoR where
  icao : String
  name : String
  lat : ℝ
  lon : ℝ
  valid : Bool

/-- Default-constructed `AirportInfo`: empty strings, zero coordinates, not
valid. -/
def emptyAirportR : AirportInfoR := ⟨"", "", 0, 0, false⟩

/-- `std::atan2` on reals (standard quadrant-correct convention). -/
def atan2R (y x : ℝ) : ℝ :=
  if 0 < x then Real.arctan (y / x)
  else if x < 0 ∧ 0 ≤ y then Real.arctan (y / x) + Real.pi
  else if x < 0 ∧ y < 0 then Real.arctan (y / x) - Real.pi
  else if x = 0 ∧ 0 < y then Real.pi / 2
  else if x = 0 ∧ y < 0 then -(Real.pi / 2)
  else 0

/-- `Recorder::CalculateDistance`: haversine great-circle distance in
nautical miles with `EARTH_RADIUS_NM = 3443.92`. -/
def calculateDistance (lat1 lon1 lat2 lon2 : ℝ) : ℝ :=
  let lat1Rad := lat1 * Real.pi / 180
  let lon1Rad := lon1 * Real.pi / 180
  let lat2Rad := lat2 * Real.pi / 180
  let lon2Rad := lon2 * Real.pi / 180
  let dLat := lat2Rad - lat1Rad
  let dLon := lon2Rad - lon1Rad
  let a := Real.sin (dLat / 2) * Real.sin (dLat / 2) +
    Real.cos lat1Rad * Real.cos lat2Rad *
    Real.sin (dLon / 2) * Real.sin (dLon / 2)
  let c := 2 * atan2R (Real.sqrt a) (Real.sqrt (1 - a))
  3443.92 * c

/-- `strncpy` into an `n+1`-byte zero-initialized buffer with explicit NUL
termination: at most `n` characters survive. -/
def strncpyS (n : Nat) (s : String) : String := s.take n

/-- `Recorder::DetectNearestAirport`: `found` is the result of the
`XPLMFindNavAid` airport query near the given position (`none` =
`XPLM_NAV_NOT_FOUND`). A found candidate is accepted only when its
haversine distance from the query point is at most 5.0 nautical miles;
otherwise the default (all-zero, invalid) result is returned. -/
def detectNearestAirport (found : Option NavAidInfo) (lat lon : ℝ) :
    AirportInfoR :=
  match found with
  | none => emptyAirportR
  | some na =>
    if calculateDistance lat lon na.lat na.lon ≤ 5.0 then
      { icao := strncpyS 7 na.navID,
        name := strncpyS 255 na.name,
        lat := na.lat,
        lon := na.lon,
        valid := true }
    else emptyAirportR

end

/-! ## Concrete instances used by witnesses and counterexamples -/

/-- A bit-pattern codec that is constant (the theorems never depend on the
encoding of finite floats). -/
def codec0 : FVal → Nat := fun _ => 0

/-- Host reads that always return zero values. -/
def reads0 : HostReads :=
  ⟨fun _ => .fin 0, fun _ => 0, fun _ _ => some (.fin 0), fun _ _ => some 0,
    fun _ => none⟩

/-- Host reads whose float reads (scalar and array) all return NaN. -/
def readsNaN : HostReads :=
  ⟨fun _ => .nan, fun _ => 0, fun _ _ => some .nan, fun _ _ => some 0,
    fun _ => none⟩

/-- The freshly-constructed recorder (all counters zero, idle, no file). -/
def rec0 : RecState :=
  ⟨false, none, none, 0, 0, 0, 0, 0, 0, emptyAirport, emptyAirport, 0, 0, 0, 0⟩

/-- A recorder state in the Recording state. -/
def recR : RecState := { rec0 with isRecording := true }

/-- A fully healthy `Start` environment (no nearby departure airport). -/
def startEnvOk : StartEnv := ⟨true, 1000, true, false, emptyAirport, true, true⟩

/-- A `Start` environment whose stream goes bad during the header write
(detected at the post-header `good()` check). -/
def startEnvHdrFail : StartEnv := ⟨true, 1000, true, false, emptyAirport, true, false⟩

/-- A healthy `Stop` environment with no arrival airport detected. -/
def stopEnvOk : StopEnv := ⟨false, emptyAirport, true, 2000⟩

/-- Manual-mode configuration: Basic level, 0.25 s interval. -/
def cfgManual : RecCfg := ⟨.Simple, 1/4, 0, false, 1⟩

/-- Auto-mode configuration with a 1 s recording interval and a 1 s
auto-stop confirmation delay. -/
def cfgAuto : RecCfg := ⟨.Simple, 1, 0, true, 1⟩

/-- A healthy tick environment at simulation time 0 with both auto
predicates unsatisfied. -/
def tickBase : TickEnv := ⟨true, 0, false, false, startEnvOk, stopEnvOk, true, reads0, 0⟩

/-- A healthy tick whose auto-stop predicate is satisfied. -/
def tickStopSat : TickEnv := { tickBase with autoStopSat := true }

/-- The Basic-level registry under full host availability. -/
def defsBasic : List DatarefDef := (loadDatarefs .Simple (fun _ => true)).datarefs

/-- Host availability exposing exactly the `ENGN_thro` array dataref. -/
def availThro : String → Bool := fun n => n == "sim/flightmodel/engine/ENGN_thro"

/-- The Normal-level registry when only `ENGN_thro` is available: a single
float array definition of arity `MAX_ENGINES`. -/
def defsThro : List DatarefDef := (loadDatarefs .Normal availThro).datarefs

/-- A single scalar float definition with a bound handle. -/
def defsLat : List DatarefDef :=
  [⟨"sim/flightmodel/position/latitude", "Latitude", .Float, 0, true⟩]

/-- A 600-byte all-zero open file with the write position at its end. -/
def fileW : VFile := ⟨List.replicate 600 0, 600⟩

/-- A concrete detected arrival airport ("KSFO"). -/
def arrW : AirportInfo := ⟨[75, 83, 70, 79], strBytes "San Francisco Intl", 7, 9, true⟩

/-- Ten healthy ticks whose simulated clock advances by 0.25 s each tick. -/
def ticks10 : List (ℚ × TickEnv) := [
  ((1 : ℚ)/4, { tickBase with simTime := 1/4 }),
  ((1 : ℚ)/4, { tickBase with simTime := 2/4 }),
  ((1 : ℚ)/4, { tickBase with simTime := 3/4 }),
  ((1 : ℚ)/4, { tickBase with simTime := 4/4 }),
  ((1 : ℚ)/4, { tickBase with simTime := 5/4 }),
  ((1 : ℚ)/4, { tickBase with simTime := 6/4 }),
  ((1 : ℚ)/4, { tickBase with simTime := 7/4 }),
  ((1 : ℚ)/4, { tickBase with simTime := 8/4 }),
  ((1 : ℚ)/4, { tickBase with simTime := 9/4 }),
  ((1 : ℚ)/4, { tickBase with simTime := 10/4 })]

/-- Every tick of the sequence passes the recording-interval test
(`currentTime - lastRecordTime >= interval`), tracking how
`m_lastRecordTime` moves to the tick's simulation time after each frame. -/
def AllRecord (cfg : RecCfg) : ℚ → List (ℚ × TickEnv) → Prop
  | _, [] => True
  | last, (_, e) :: rest =>
    cfg.interval ≤ e.simTime - last ∧ AllRecord cfg e.simTime rest

/-- Total byte size of the frames a tick sequence produces. -/
def frameLenSum (codec : FVal → Nat) (defs : List DatarefDef) :
    List (ℚ × TickEnv) → Nat
  | [] => 0
  | (_, e) :: rest =>
    (frameBytes codec defs e.timeRefOk e.simTime
      (readCurrentValues e.reads defs)).length + frameLenSum codec defs rest

/-- Two ticks of 0.4 s whose auto-stop predicate is satisfied (total 0.8 s,
below the 1 s confirmation delay of `cfgAuto`). -/
def ticksA : List (ℚ × TickEnv) := [((2 : ℚ)/5, tickStopSat), ((2 : ℚ)/5, tickStopSat)]

/-! ## Helper lemmas -/

theorem leBytes_length (w : Nat) : ∀ v, (leBytes w v).length = w := by
  induction w with
  | zero => intro v; rfl
  | succ n ih => intro v; simp [leBytes, ih]

theorem fixedBytes_length (n : Nat) (l : List Nat) : (fixedBytes n l).length = n := by
  simp [fixedBytes]
  omega

theorem arrivalBlock_length (arr : AirportInfo) : (arrivalBlock arr).length = 272 := by
  simp [arrivalBlock, fixedBytes_length, leBytes_length]

theorem sanitizeF_finite (v : FVal) : isFinite (sanitizeF v) = true := by
  cases v <;> rfl

/-- `AddDataref` over a sequence of entries appends exactly the
host-available entries, in order. -/
theorem foldl_addDataref_datarefs (avail : String → Bool) :
    ∀ (es : List DrEntry) (st : DrState),
      (es.foldl (addDataref avail) st).datarefs =
        st.datarefs ++ (es.filter (fun e => avail e.name)).map mkDataref := by
  intro es
  induction es with
  | nil => intro st; simp
  | cons e rest ih =>
    intro st
    cases h : avail e.name
    · simp [addDataref, h, ih, List.filter_cons]
    · simp [addDataref, h, ih, List.filter_cons]

/-- `LoadDatarefs` registers exactly the declarative entries of the level
whose host lookup succeeded, in declarative order. -/
theorem loadDatarefs_eq (level : RecordingLevel) (avail : String → Bool) :
    (loadDatarefs level avail).datarefs =
      ((entriesForLevel level).filter (fun e => avail e.name)).map mkDataref := by
  simpa using foldl_addDataref_datarefs avail (entriesForLevel level) ⟨[], []⟩

theorem drNames_eq (level : RecordingLevel) (avail : String → Bool) :
    drNames level avail =
      ((entriesForLevel level).filter (fun e => avail e.name)).map (fun e => e.name) := by
  simp [drNames, loadDatarefs_eq, List.map_map, Function.comp_def, mkDataref]

/-- The declarative entry sequence of a higher level is that of the lower
level followed by the increment between the two levels. -/
theorem entriesForLevel_eq_append (L1 L2 : RecordingLevel)
    (h : levelNat L1 < levelNat L2) :
    entriesForLevel L2 = entriesForLevel L1 ++ incrementEntries L1 L2 := by
  cases L1 <;> cases L2
  case Simple.Normal => simp [entriesForLevel, incrementEntries, levelNat]
  case Simple.Detailed => simp [entriesForLevel, incrementEntries, levelNat]
  case Normal.Detailed => simp [entriesForLevel, incrementEntries, levelNat]
  all_goals simp [levelNat] at h

set_option maxRecDepth 40000 in
/-- No name in a higher level's declarative increment occurs in the lower
level's declarative sequence: the three tables are pairwise name-disjoint. -/
theorem incrementEntries_names_fresh (L1 L2 : RecordingLevel)
    (h : levelNat L1 < levelNat L2) :
    ∀ e ∈ incrementEntries L1 L2,
      e.name ∉ (entriesForLevel L1).map (fun e => e.name) := by
  cases L1 <;> cases L2
  case Simple.Normal => decide
  case Simple.Detailed => decide
  case Normal.Detailed => decide
  all_goals simp [levelNat] at h

theorem readOne_floats_finite (r : HostReads) (dr : DatarefDef)
    (h : dr.type = DatarefType.Float → dr.arraySize = 0) :
    ∀ v ∈ (readOne r dr).floats, isFinite v = true := by
  intro v hv
  cases htype : dr.type
  case Float =>
    have ha : dr.arraySize = 0 := h htype
    cases href : dr.ref <;> simp [readOne, htype, ha, href] at hv
    · subst hv; rfl
    · subst hv; exact sanitizeF_finite _
  case Int =>
    cases href : dr.ref <;> cases hs : decide (0 < dr.arraySize) <;>
      simp_all [readOne]
  case String =>
    cases href : dr.ref <;> cases hs : decide (0 < dr.arraySize) <;>
      simp_all [readOne]

/-! ## Claim C1 -/

/-- Claim C1 (counterexample): `"sim/time/total_running_time_sec"` belongs to
the Basic declarative set, yet when the host lookup fails for every name
(`avail = fun _ => false`) the definition list built for the Basic level is
empty — the definition is not appended with an absent handle, contradicting
the claim that Build records every declarative definition regardless of
host availability. -/
theorem spec_C1_counterexample :
    "sim/time/total_running_time_sec" ∈ basicEntries.map (·.name) ∧
    (loadDatarefs .Simple (fun _ => false)).datarefs = [] := by
  constructor
  · decide
  · rfl

/-- Claim C1 (amended): when the host variable-lookup returns "not found",
`AddDataref` returns without appending anything; consequently after Build the
registry's definition list consists of exactly those definitions of the
declarative set for the level whose host lookup succeeded, in declarative
order (each with its handle bound). -/
theorem spec_C1_amended (level : RecordingLevel) (avail : String → Bool)
    (e : DrEntry) (st : DrState) (hnf : avail e.name = false) :
    addDataref avail st e = st ∧
    (loadDatarefs level avail).datarefs =
      ((entriesForLevel level).filter (fun e => avail e.name)).map mkDataref := by
  refine ⟨?_, loadDatarefs_eq level avail⟩
  simp [addDataref, hnf]

/-- Witness for C1 (amended), at the Basic level with no host availability. -/
theorem spec_C1_amended_witness :
    addDataref (fun _ => false) ⟨[], []⟩ ⟨"sim/time/zulu_time_sec", "Zulu time", .Float, 0⟩ = ⟨[], []⟩ ∧
    (loadDatarefs .Simple (fun _ => false)).datarefs =
      ((entriesForLevel .Simple).filter (fun e => (fun _ => false) e.name)).map mkDataref :=
  spec_C1_amended .Simple (fun _ => false)
    ⟨"sim/time/zulu_time_sec", "Zulu time", .Float, 0⟩ ⟨[], []⟩ rfl

/-! ## Claim C2 -/

/-- Claim C2 (counterexample): for the float array dataref `ENGN_thro`
(present handle, arity 8), host array reads returning NaN are stored
unsanitized by `ReadCurrentValues`: the snapshot's float sequence is eight
NaNs, so a non-finite float does remain in the snapshot, contradicting the
claim that every float slot, scalar or array element, is sanitized. -/
theorem spec_C2_counterexample :
    (readCurrentValues readsNaN defsThro).floats = List.replicate 8 FVal.nan ∧
    ((readCurrentValues readsNaN defsThro).floats.all isFinite) = false := by
  constructor
  · rfl
  · rfl

/-- Claim C2 (amended): the NaN/infinity sanitization applies to scalar
float reads only (array float elements are stored as returned by the host).
For a registry whose float definitions are all scalar, `ReadCurrentValues`
leaves no non-finite float in the snapshot. -/
theorem spec_C2_amended (r : HostReads) (defs : List DatarefDef)
    (h : ∀ dr ∈ defs, dr.type = DatarefType.Float → dr.arraySize = 0) :
    ∀ v ∈ (readCurrentValues r defs).floats, isFinite v = true := by
  induction defs with
  | nil => intro v hv; simp [readCurrentValues] at hv
  | cons dr rest ih =>
    intro v hv
    simp only [readCurrentValues, List.mem_append] at hv
    rcases hv with hv | hv
    · exact readOne_floats_finite r dr (h dr (by simp)) v hv
    · exact ih (fun d hd => h d (by simp [hd])) v hv

/-- Witness for C2 (amended): a scalar float registry whose host read
returns NaN yields a snapshot in which every float is finite. -/
theorem spec_C2_witness :
    (readCurrentValues readsNaN defsLat).floats.all isFinite = true := by
  rw [List.all_eq_true]
  intro v hv
  exact spec_C2_amended readsNaN defsLat (by decide) v hv

/-! ## Claim C4 -/

/-- Claim C4 (counterexample): under a host that exposes no variables at
all, the Normal-level and Basic-level registries are both empty, so the
variable set built for the higher level is not a strict superset of the
lower level's — strictness fails for this availability. -/
theorem spec_C4_counterexample :
    drNames .Normal (fun _ => false) = drNames .Simple (fun _ => false) ∧
    ¬ ∃ n ∈ drNames .Normal (fun _ => false), n ∉ drNames .Simple (fun _ => false) := by
  constructor
  · rfl
  · decide

/-- Claim C4 (amended): for detail levels L1 < L2 under the same host
availability, the variable set built for L2 is always a superset of the set
built for L1; it is a strict superset whenever the host exposes at least one
variable of the L2 increment, and when no increment variable is exposed the
two sets coincide (so strictness holds exactly then). -/
theorem spec_C4_amended (L1 L2 : RecordingLevel) (avail : String → Bool)
    (h : levelNat L1 < levelNat L2) :
    (∀ n ∈ drNames L1 avail, n ∈ drNames L2 avail) ∧
    ((∃ e ∈ incrementEntries L1 L2, avail e.name = true) →
      ∃ n ∈ drNames L2 avail, n ∉ drNames L1 avail) ∧
    ((∀ e ∈ incrementEntries L1 L2, avail e.name = false) →
      drNames L2 avail = drNames L1 avail) := by
  have hEq := entriesForLevel_eq_append L1 L2 h
  refine ⟨?_, ?_, ?_⟩
  · intro n hn
    rw [drNames_eq] at hn ⊢
    rw [hEq, List.filter_append, List.map_append]
    exact List.mem_append_left _ hn
  · rintro ⟨e, he, hav⟩
    refine ⟨e.name, ?_, ?_⟩
    · rw [drNames_eq, hEq, List.filter_append, List.map_append]
      refine List.mem_append_right _ ?_
      exact List.mem_map_of_mem _ (List.mem_filter.mpr ⟨he, hav⟩)
    · intro hcon
      have hsub : e.name ∈ (entriesForLevel L1).map (fun e => e.name) := by
        rw [drNames_eq] at hcon
        obtain ⟨e1, he1, hname⟩ := List.mem_map.mp hcon
        rw [← hname]
        exact List.mem_map_of_mem _ (List.mem_filter.mp he1).1
      exact incrementEntries_names_fresh L1 L2 h e he hsub
  · intro hnone
    rw [drNames_eq, drNames_eq, hEq, List.filter_append]
    have hnil : (incrementEntries L1 L2).filter (fun e => avail e.name) = [] := by
      rw [List.filter_eq_nil_iff]
      intro e he
      simp [hnone e he]
    rw [hnil, List.append_nil]

/-- Witness for C4 (amended): Basic < Normal; under full availability the
increment is exposed and the superset is strict; under the all-unavailable
host the two variable sets coincide. -/
theorem spec_C4_witness :
    (∀ n ∈ drNames .Simple (fun _ => true), n ∈ drNames .Normal (fun _ => true)) ∧
    (∃ n ∈ drNames .Normal (fun _ => true), n ∉ drNames .Simple (fun _ => true)) ∧
    drNames .Normal (fun _ => false) = drNames .Simple (fun _ => false) :=
  ⟨(spec_C4_amended .Simple .Normal (fun _ => true) (by decide)).1,
   (spec_C4_amended .Simple .Normal (fun _ => true) (by decide)).2.1
     ⟨⟨"sim/joystick/yoke_pitch_ratio", "Yoke pitch", .Float, 0⟩, by decide, rfl⟩,
   (spec_C4_amended .Simple .Normal (fun _ => false) (by decide)).2.2
     (fun _ _ => rfl)⟩

/-! ## Claim C3 -/

theorem writeAt_eq_of_le (d : List Nat) (p : Nat) (bs : List Nat)
    (h : p ≤ d.length) :
    writeAt d p bs = d.take p ++ bs ++ d.drop (p + bs.length) := by
  simp [writeAt, Nat.sub_eq_zero_of_le h]

/-- Claim C3 (confirmed): `UpdateHeaderWithArrival` on a file whose content
covers the header region rewrites exactly bytes [291, 563) with the arrival
block (8-byte ICAO, f32 lat, f32 lon, 256-byte name), leaves every byte
before offset 291 and from offset 563 on unchanged, restores the write
position, and does not change the file length. -/
theorem spec_C3 (arr : AirportInfo) (f : VFile) (h : 563 ≤ f.data.length) :
    (patchArrival arr f).data.take 291 = f.data.take 291 ∧
    ((patchArrival arr f).data.drop 291).take 272 = arrivalBlock arr ∧
    (patchArrival arr f).data.drop 563 = f.data.drop 563 ∧
    (patchArrival arr f).pos = f.pos ∧
    (patchArrival arr f).data.length = f.data.length := by
  have hA : (f.data.take 291).length = 291 := by
    rw [List.length_take]; omega
  have hB : (arrivalBlock arr).length = 272 := arrivalBlock_length arr
  have hd : (patchArrival arr f).data =
      f.data.take 291 ++ arrivalBlock arr ++ f.data.drop 563 := by
    show writeAt f.data 291 (arrivalBlock arr) = _
    rw [writeAt_eq_of_le _ _ _ (by omega), hB]
  have hAB : (f.data.take 291 ++ arrivalBlock arr).length = 563 := by
    simp [hA, hB]
  refine ⟨?_, ?_, ?_, rfl, ?_⟩
  · rw [hd, List.append_assoc, List.take_left' hA]
  · rw [hd, List.append_assoc, List.drop_left' hA, List.take_left' hB]
  · rw [hd, List.drop_left' hAB]
  · rw [hd]
    simp only [List.length_append, hA, hB, List.length_drop]
    omega

/-- Witness for C3: patching a concrete 600-byte file. -/
theorem spec_C3_witness :
    ((patchArrival arrW fileW).data.drop 291).take 272 = arrivalBlock arrW ∧
    (patchArrival arrW fileW).pos = fileW.pos :=
  ⟨(spec_C3 arrW fileW (by simp only [fileW, List.length_replicate]; norm_num)).2.1,
   (spec_C3 arrW fileW (by simp only [fileW, List.length_replicate]; norm_num)).2.2.2.1⟩

/-! ## Claim C5 -/

/-- Claim C5 (confirmed): `Start()` while already Recording returns failure
and changes nothing; `Stop()` while Recording always returns success and
leaves the engine Idle; `Stop()` while not Recording returns failure and
changes nothing. -/
theorem spec_C5 (cfg : RecCfg) (defs : List DatarefDef) (envS : StartEnv)
    (envT : StopEnv) (st : RecState) :
    (st.isRecording = true → startR cfg defs envS st = (st, false)) ∧
    (st.isRecording = true →
      (stopR envT st).2 = true ∧ (stopR envT st).1.isRecording = false) ∧
    (st.isRecording = false → stopR envT st = (st, false)) := by
  refine ⟨?_, ?_, ?_⟩
  · intro h; simp [startR, h]
  · intro h
    refine ⟨?_, ?_⟩
    · simp [stopR, h]
    · simp [stopR, h]
  · intro h; simp [stopR, h]

/-- Witness for C5: a concrete Recording state and the fresh Idle state. -/
theorem spec_C5_witness :
    startR cfgManual [] startEnvOk recR = (recR, false) ∧
    ((stopR stopEnvOk recR).2 = true ∧ (stopR stopEnvOk recR).1.isRecording = false) ∧
    stopR stopEnvOk rec0 = (rec0, false) :=
  ⟨(spec_C5 cfgManual [] startEnvOk stopEnvOk recR).1 rfl,
   (spec_C5 cfgManual [] startEnvOk stopEnvOk recR).2.1 rfl,
   (spec_C5 cfgManual [] startEnvOk stopEnvOk rec0).2.2 rfl⟩

/-! ## Claim C7 -/

set_option maxRecDepth 8000 in
/-- Claim C7 (counterexample): when the stream goes bad during the header
write (detected at the post-header check), `Start()` returns failure and
closes the file, but the session byte counter is not rolled back: from a
fresh state with `m_bytesWritten = 0` it is left at 565 (the length of the
header written for an empty registry), so "no session counters committed"
fails as stated. -/
theorem spec_C7_counterexample :
    (startR cfgManual [] startEnvHdrFail rec0).2 = false ∧
    (startR cfgManual [] startEnvHdrFail rec0).1.bytesWritten = 565 ∧
    rec0.bytesWritten = 0 := by
  refine ⟨rfl, ?_, rfl⟩
  rfl

/-- Claim C7 (amended): if `localtime` fails, the file cannot be opened, or
the stream is bad at the magic-number or post-header check, then `Start()`
returns failure, the engine stays Idle, no file handle is left open, and
the record counter and last-sample time are untouched. (The cumulative byte
counter, however, may retain the aborted header's byte count until the next
successful `Start`.) -/
theorem spec_C7_amended (cfg : RecCfg) (defs : List DatarefDef)
    (env : StartEnv) (st : RecState)
    (hIdle : st.isRecording = false) (hFile : st.file = none)
    (hfail : env.localtimeOk = false ∨ env.openOk = false ∨
      env.magicOk = false ∨ env.headerOk = false) :
    (startR cfg defs env st).2 = false ∧
    (startR cfg defs env st).1.isRecording = false ∧
    (startR cfg defs env st).1.file = none ∧
    (startR cfg defs env st).1.recordCount = st.recordCount ∧
    (startR cfg defs env st).1.lastRecordTime = st.lastRecordTime := by
  cases e1 : env.localtimeOk <;> cases e2 : env.openOk <;>
    cases e3 : env.magicOk <;> cases e4 : env.headerOk <;>
    cases e5 : env.posRefsOk <;> simp_all [startR]

/-- Witness for C7 (amended): a fresh recorder with a header-write failure. -/
theorem spec_C7_witness :
    (startR cfgManual [] startEnvHdrFail rec0).2 = false ∧
    (startR cfgManual [] startEnvHdrFail rec0).1.isRecording = false ∧
    (startR cfgManual [] startEnvHdrFail rec0).1.file = none ∧
    (startR cfgManual [] startEnvHdrFail rec0).1.recordCount = rec0.recordCount ∧
    (startR cfgManual [] startEnvHdrFail rec0).1.lastRecordTime = rec0.lastRecordTime :=
  spec_C7_amended cfgManual [] startEnvHdrFail rec0 rfl rfl
    (Or.inr (Or.inr (Or.inr rfl)))

/-! ## Claim C9 -/

/-- Claim C9 (confirmed): endpoint detection returns a valid airport if and
only if the host navigation query found an airport whose haversine distance
(mean Earth radius 3443.92 nm) from the query point is at most 5.0 nautical
miles; in every other case the returned endpoint is the default
all-zero/empty, not-valid value — no error. -/
theorem spec_C9 (found : Option NavAidInfo) (lat lon : ℝ) :
    ((detectNearestAirport found lat lon).valid = true ↔
      ∃ na, found = some na ∧ calculateDistance lat lon na.lat na.lon ≤ 5.0) ∧
    ((detectNearestAirport found lat lon).valid = false →
      detectNearestAirport found lat lon = emptyAirportR) := by
  cases found with
  | none => simp [detectNearestAirport, emptyAirportR]
  | some na =>
    by_cases hd : calculateDistance lat lon na.lat na.lon ≤ 5.0
    · constructor
      · simp [detectNearestAirport, hd]
      · intro hv
        simp [detectNearestAirport, hd] at hv
    · constructor
      · simp [detectNearestAirport, hd, emptyAirportR]
      · intro _
        simp [detectNearestAirport, hd]

/-- Witness for C9: no navaid found yields the default endpoint. -/
theorem spec_C9_witness :
    detectNearestAirport none 0 0 = emptyAirportR :=
  (spec_C9 none 0 0).2 rfl

/-! ## Session-run lemmas (for C6, C8, C10) -/

theorem writeAt_end (d bs : List Nat) : writeAt d d.length bs = d ++ bs := by
  have hdrop : d.drop (d.length + bs.length) = [] :=
    List.drop_eq_nil_of_le (Nat.le_add_right _ _)
  simp [writeAt, hdrop]

theorem writeAt_length_of_le (d : List Nat) (p : Nat) (bs : List Nat)
    (h : p + bs.length ≤ d.length) :
    (writeAt d p bs).length = d.length := by
  rw [writeAt_eq_of_le d p bs (by omega)]
  simp only [List.length_append, List.length_take, List.length_drop]
  omega

theorem fwrite_end (f : VFile) (bs : List Nat) (h : f.pos = f.data.length) :
    (fwrite f bs).data = f.data ++ bs ∧
    (fwrite f bs).pos = f.data.length + bs.length := by
  constructor
  · show writeAt f.data f.pos bs = _
    rw [h, writeAt_end]
  · simp [fwrite, h]

theorem patchArrival_len (a : AirportInfo) (f : VFile)
    (h : 563 ≤ f.data.length) :
    (patchArrival a f).data.length = f.data.length ∧
    (patchArrival a f).pos = f.pos := by
  refine ⟨?_, rfl⟩
  show (writeAt f.data 291 (arrivalBlock a)).length = _
  exact writeAt_length_of_le _ _ _ (by rw [arrivalBlock_length]; omega)

theorem stopR_isRecording (env : StopEnv) (st : RecState) :
    (stopR env st).1.isRecording = false := by
  cases h : st.isRecording
  · simp [stopR, h]
  · simp [stopR, h]

/-- The session-file invariant: the open file's write position sits at its
end, its length is the header length plus the byte counter (the counter was
reset to zero after the header), and the header region is covered. -/
def SInv (hlen : Nat) (st : RecState) : Prop :=
  ∃ f, st.file = some f ∧ f.pos = f.data.length ∧
    f.data.length = hlen + st.bytesWritten ∧ 565 ≤ hlen

theorem headerBytes_length_ge (level : RecordingLevel) (ib t : Nat)
    (dep : AirportInfo) (defs : List DatarefDef) :
    565 ≤ (headerBytes level ib t dep defs).length := by
  simp only [headerBytes, List.length_append, leBytes_length, fixedBytes_length,
    List.length_replicate, List.length_cons, List.length_nil]
  omega

theorem recordFrame_SInv (codec : FVal → Nat) (defs : List DatarefDef)
    (env : TickEnv) (st : RecState) (hlen : Nat)
    (hg : env.fileGood = true) (hInv : SInv hlen st) :
    SInv hlen (recordFrame codec defs env st).1 ∧
    (recordFrame codec defs env st).1.isRecording = st.isRecording ∧
    (recordFrame codec defs env st).1.autoStopTimer = st.autoStopTimer ∧
    (recordFrame codec defs env st).1.recordCount = st.recordCount + 1 ∧
    (recordFrame codec defs env st).2 = 0 := by
  obtain ⟨f, hf, hpos, hflen, hge⟩ := hInv
  set fb := frameBytes codec defs env.timeRefOk env.simTime
    (readCurrentValues env.reads defs) with hfb
  obtain ⟨hdata, hpos'⟩ := fwrite_end f fb hpos
  have hfile : (recordFrame codec defs env st).1.file = some (fwrite f fb) := by
    simp [recordFrame, hf, hg, hfb]
  have hbytes : (recordFrame codec defs env st).1.bytesWritten =
      st.bytesWritten + fb.length := by
    simp [recordFrame, hf, hg, hfb]
  refine ⟨⟨fwrite f fb, hfile, ?_, ?_, hge⟩, ?_, ?_, ?_, ?_⟩
  · rw [hpos', hdata]
    simp
  · rw [hdata, hbytes]
    simp only [List.length_append]
    omega
  · simp [recordFrame, hf, hg]
  · simp [recordFrame, hf, hg]
  · simp [recordFrame, hf, hg]
  · simp [recordFrame, hf, hg]

theorem recordFrame_fst_isRecording (codec : FVal → Nat) (defs : List DatarefDef)
    (env : TickEnv) (st : RecState) (hg : env.fileGood = true) :
    (recordFrame codec defs env st).1.isRecording = st.isRecording := by
  cases hf : st.file <;> simp [recordFrame, hf, hg]

theorem recordFrame_fst_timer (codec : FVal → Nat) (defs : List DatarefDef)
    (env : TickEnv) (st : RecState) (hg : env.fileGood = true) :
    (recordFrame codec defs env st).1.autoStopTimer = st.autoStopTimer := by
  cases hf : st.file <;> simp [recordFrame, hf, hg]

theorem recordFrame_snd (codec : FVal → Nat) (defs : List DatarefDef)
    (env : TickEnv) (st : RecState) (hg : env.fileGood = true) :
    (recordFrame codec defs env st).2 = 0 := by
  cases hf : st.file <;> simp [recordFrame, hf, hg]

theorem updateR_stopSat_noStop (codec : FVal → Nat) (cfg : RecCfg)
    (defs : List DatarefDef) (dt : ℚ) (env : TickEnv) (st : RecState)
    (hAuto : cfg.autoMode = true) (hRec : st.isRecording = true)
    (hSat : env.autoStopSat = true) (hTime : env.timeRefOk = true)
    (hGood : env.fileGood = true)
    (hLt : st.autoStopTimer + dt < cfg.autoStopDelay) :
    (updateR codec cfg defs dt env st).2 = 0 ∧
    (updateR codec cfg defs dt env st).1.isRecording = true ∧
    (updateR codec cfg defs dt env st).1.autoStopTimer = st.autoStopTimer + dt := by
  have hnle : ¬ (cfg.autoStopDelay ≤ st.autoStopTimer + dt) := not_le.mpr hLt
  by_cases hi : cfg.interval ≤ env.simTime - st.lastRecordTime <;>
    simp [updateR, autoStartStep, autoStopStep, recordStep, hRec, hAuto, hSat,
      hTime, hGood, hnle, hi, recordFrame_fst_isRecording, recordFrame_fst_timer,
      recordFrame_snd]

theorem updateR_stopUnsat (codec : FVal → Nat) (cfg : RecCfg)
    (defs : List DatarefDef) (dt : ℚ) (env : TickEnv) (st : RecState)
    (hAuto : cfg.autoMode = true) (hRec : st.isRecording = true)
    (hSat : env.autoStopSat = false) (hTime : env.timeRefOk = true)
    (hGood : env.fileGood = true) :
    (updateR codec cfg defs dt env st).2 = 0 ∧
    (updateR codec cfg defs dt env st).1.isRecording = true ∧
    (updateR codec cfg defs dt env st).1.autoStopTimer = 0 := by
  by_cases hi : cfg.interval ≤ env.simTime - st.lastRecordTime <;>
    simp [updateR, autoStartStep, autoStopStep, recordStep, hRec, hAuto, hSat,
      hTime, hGood, hi, recordFrame_fst_isRecording, recordFrame_fst_timer,
      recordFrame_snd]

theorem updateR_stopSat_stop (codec : FVal → Nat) (cfg : RecCfg)
    (defs : List DatarefDef) (dt : ℚ) (env : TickEnv) (st : RecState)
    (hAuto : cfg.autoMode = true) (hRec : st.isRecording = true)
    (hSat : env.autoStopSat = true) (hTime : env.timeRefOk = true)
    (hGe : cfg.autoStopDelay ≤ st.autoStopTimer + dt) :
    (updateR codec cfg defs dt env st).2 = 1 ∧
    (updateR codec cfg defs dt env st).1.isRecording = false := by
  simp [updateR, autoStartStep, autoStopStep, hRec, hAuto, hSat, hTime, hGe,
    stopR_isRecording]

theorem runTicks_noStop (codec : FVal → Nat) (cfg : RecCfg)
    (defs : List DatarefDef) (hAuto : cfg.autoMode = true) :
    ∀ (ticks : List (ℚ × TickEnv)) (st : RecState),
      st.isRecording = true →
      (∀ p ∈ ticks, p.2.autoStopSat = true ∧ p.2.timeRefOk = true ∧
        p.2.fileGood = true) →
      (∀ k, k ≤ ticks.length →
        st.autoStopTimer + ((ticks.take k).map Prod.fst).sum < cfg.autoStopDelay) →
      (runTicks codec cfg defs ticks st).2 = 0 ∧
      (runTicks codec cfg defs ticks st).1.isRecording = true ∧
      (runTicks codec cfg defs ticks st).1.autoStopTimer =
        st.autoStopTimer + (ticks.map Prod.fst).sum := by
  intro ticks
  induction ticks with
  | nil =>
    intro st h1 _ _
    simp [runTicks, h1]
  | cons p rest ih =>
    obtain ⟨dt, e⟩ := p
    intro st hRec hAll hSum
    obtain ⟨hSat, hTime, hGood⟩ := hAll (dt, e) (by simp)
    have hLt : st.autoStopTimer + dt < cfg.autoStopDelay := by
      have h1 := hSum 1 (by simp)
      simpa using h1
    obtain ⟨u0, u1, u2⟩ :=
      updateR_stopSat_noStop codec cfg defs dt e st hAuto hRec hSat hTime hGood hLt
    have hSum' : ∀ k, k ≤ rest.length →
        (updateR codec cfg defs dt e st).1.autoStopTimer +
          ((rest.take k).map Prod.fst).sum < cfg.autoStopDelay := by
      intro k hk
      have h2 := hSum (k + 1) (by simpa using Nat.succ_le_succ hk)
      rw [u2]
      simpa [List.take_succ_cons, add_assoc] using h2
    obtain ⟨r0, r1, r2⟩ := ih (updateR codec cfg defs dt e st).1 u1
      (fun q hq => hAll q (by simp [hq])) hSum'
    refine ⟨?_, ?_, ?_⟩
    · simp [runTicks, u0, r0]
    · simp [runTicks, r1]
    · simp [runTicks, r2, u2, add_assoc]

theorem footerBytes_length (c t : Nat) : (footerBytes c t).length = 16 := by
  simp [footerBytes, leBytes_length]

theorem startR_success (cfg : RecCfg) (defs : List DatarefDef) (env : StartEnv)
    (st : RecState) (hIdle : st.isRecording = false)
    (hl : env.localtimeOk = true) (ho : env.openOk = true)
    (hm : env.magicOk = true) (hh : env.headerOk = true) :
    (startR cfg defs env st).2 = true ∧
    (startR cfg defs env st).1.isRecording = true ∧
    (startR cfg defs env st).1.bytesWritten = 0 ∧
    (startR cfg defs env st).1.recordCount = 0 ∧
    (startR cfg defs env st).1.lastRecordTime = 0 ∧
    ∃ hlen, SInv hlen (startR cfg defs env st).1 := by
  have hw : ∀ hdr : List Nat, fwrite ⟨[], 0⟩ hdr = ⟨hdr, hdr.length⟩ := by
    intro hdr
    simp [fwrite, writeAt]
  cases hp : env.posRefsOk
  case false =>
    refine ⟨by simp [startR, hIdle, hl, ho, hm, hh, hp],
      by simp [startR, hIdle, hl, ho, hm, hh, hp],
      by simp [startR, hIdle, hl, ho, hm, hh, hp],
      by simp [startR, hIdle, hl, ho, hm, hh, hp],
      by simp [startR, hIdle, hl, ho, hm, hh, hp], ?_⟩
    refine ⟨(headerBytes cfg.level cfg.intervalBits st.recordingStartTime st.departure defs).length,
      ⟨headerBytes cfg.level cfg.intervalBits st.recordingStartTime st.departure defs,
        (headerBytes cfg.level cfg.intervalBits st.recordingStartTime st.departure defs).length⟩,
      ?_, rfl, ?_, headerBytes_length_ge _ _ _ _ _⟩
    · simp [startR, hIdle, hl, ho, hm, hh, hp, hw]
    · simp [startR, hIdle, hl, ho, hm, hh, hp]
  case true =>
    refine ⟨by simp [startR, hIdle, hl, ho, hm, hh, hp],
      by simp [startR, hIdle, hl, ho, hm, hh, hp],
      by simp [startR, hIdle, hl, ho, hm, hh, hp],
      by simp [startR, hIdle, hl, ho, hm, hh, hp],
      by simp [startR, hIdle, hl, ho, hm, hh, hp], ?_⟩
    refine ⟨(headerBytes cfg.level cfg.intervalBits st.recordingStartTime env.depDetect defs).length,
      ⟨headerBytes cfg.level cfg.intervalBits st.recordingStartTime env.depDetect defs,
        (headerBytes cfg.level cfg.intervalBits st.recordingStartTime env.depDetect defs).length⟩,
      ?_, rfl, ?_, headerBytes_length_ge _ _ _ _ _⟩
    · simp [startR, hIdle, hl, ho, hm, hh, hp, hw]
    · simp [startR, hIdle, hl, ho, hm, hh, hp]

theorem updateR_manual_SInv (codec : FVal → Nat) (cfg : RecCfg)
    (defs : List DatarefDef) (dt : ℚ) (env : TickEnv) (st : RecState) (hlen : Nat)
    (hAuto : cfg.autoMode = false) (hGood : env.fileGood = true)
    (hRec : st.isRecording = true) (hInv : SInv hlen st) :
    SInv hlen (updateR codec cfg defs dt env st).1 ∧
    (updateR codec cfg defs dt env st).1.isRecording = true := by
  obtain ⟨f, hf, hpos, hflen, hge⟩ := hInv
  cases hTime : env.timeRefOk
  case false =>
    have he : updateR codec cfg defs dt env st = (st, 0) := by
      simp [updateR, hRec, hTime]
    rw [he]
    exact ⟨⟨f, hf, hpos, hflen, hge⟩, hRec⟩
  case true =>
    by_cases hi : cfg.interval ≤ env.simTime - st.lastRecordTime
    · have hInv1 : SInv hlen { st with lastUpdateTime := env.simTime } :=
        ⟨f, hf, hpos, hflen, hge⟩
      obtain ⟨s1, s2, s3, s4, s5⟩ :=
        recordFrame_SInv codec defs env _ hlen hGood hInv1
      have he : updateR codec cfg defs dt env st =
          ({ (recordFrame codec defs env { st with lastUpdateTime := env.simTime }).1
              with lastRecordTime := env.simTime },
            (recordFrame codec defs env { st with lastUpdateTime := env.simTime }).2) := by
        simp [updateR, autoStartStep, autoStopStep, recordStep, hRec, hAuto, hTime, hi]
      rw [he]
      obtain ⟨g, hg1, hg2, hg3, hg4⟩ := s1
      exact ⟨⟨g, by simp [hg1], hg2, by simpa using hg3, hg4⟩,
        by simpa [hRec] using s2⟩
    · have he : updateR codec cfg defs dt env st =
          ({ st with lastUpdateTime := env.simTime }, 0) := by
        simp [updateR, autoStartStep, autoStopStep, recordStep, hRec, hAuto, hTime, hi]
      rw [he]
      exact ⟨⟨f, by simp [hf], hpos, by simpa using hflen, hge⟩, hRec⟩

theorem runTicks_manual_SInv (codec : FVal → Nat) (cfg : RecCfg)
    (defs : List DatarefDef) (hlen : Nat) (hAuto : cfg.autoMode = false) :
    ∀ (ticks : List (ℚ × TickEnv)) (st : RecState),
      st.isRecording = true →
      (∀ p ∈ ticks, p.2.fileGood = true) →
      SInv hlen st →
      SInv hlen (runTicks codec cfg defs ticks st).1 ∧
      (runTicks codec cfg defs ticks st).1.isRecording = true := by
  intro ticks
  induction ticks with
  | nil =>
    intro st h1 _ h3
    exact ⟨by simpa [runTicks] using h3, by simpa [runTicks] using h1⟩
  | cons p rest ih =>
    obtain ⟨dt, e⟩ := p
    intro st hRec hAll hInv
    obtain ⟨m1, m2⟩ := updateR_manual_SInv codec cfg defs dt e st hlen hAuto
      (hAll (dt, e) (by simp)) hRec hInv
    obtain ⟨r1, r2⟩ := ih (updateR codec cfg defs dt e st).1 m2
      (fun q hq => hAll q (by simp [hq])) m1
    exact ⟨by simpa [runTicks] using r1, by simpa [runTicks] using r2⟩

theorem stopR_final (env : StopEnv) (st : RecState) (hlen : Nat)
    (hRec : st.isRecording = true) (hInv : SInv hlen st)
    (hFoot : env.footerGood = true) :
    (stopR env st).2 = true ∧
    (stopR env st).1.recordCount = st.recordCount ∧
    (stopR env st).1.bytesWritten = st.bytesWritten + 16 ∧
    ∃ f, (stopR env st).1.disk = some f ∧
      f.data.length = hlen + (stopR env st).1.bytesWritten ∧
      f.data.drop (f.data.length - 16) = footerBytes st.recordCount env.endTime := by
  obtain ⟨f, hf, hpos, hflen, hge⟩ := hInv
  have h563 : 563 ≤ f.data.length := by omega
  by_cases hv : (if env.posRefsOk then env.arrDetect else st.arrival).valid
  · -- arrival detected: the header is patched, then the footer appended
    obtain ⟨glen, gpos⟩ :=
      patchArrival_len (if env.posRefsOk then env.arrDetect else st.arrival) f h563
    have gend : (patchArrival (if env.posRefsOk then env.arrDetect else st.arrival) f).pos =
        (patchArrival (if env.posRefsOk then env.arrDetect else st.arrival) f).data.length := by
      rw [gpos, glen, hpos]
    obtain ⟨wdata, wpos⟩ := fwrite_end
      (patchArrival (if env.posRefsOk then env.arrDetect else st.arrival) f)
      (footerBytes st.recordCount env.endTime) gend
    have he : stopR env st =
        ({ st with arrival := if env.posRefsOk then env.arrDetect else st.arrival,
                   file := none,
                   disk := some (fwrite
                     (patchArrival (if env.posRefsOk then env.arrDetect else st.arrival) f)
                     (footerBytes st.recordCount env.endTime)),
                   bytesWritten := st.bytesWritten +
                     (footerBytes st.recordCount env.endTime).length,
                   isRecording := false }, true) := by
      cases hpr : env.posRefsOk <;> simp_all [stopR, hRec, hf, hFoot]
    rw [he]
    have hlenw : (fwrite
        (patchArrival (if env.posRefsOk then env.arrDetect else st.arrival) f)
        (footerBytes st.recordCount env.endTime)).data.length =
        f.data.length + 16 := by
      rw [wdata]
      simp [glen, footerBytes_length]
    refine ⟨rfl, rfl, by simp [footerBytes_length], ?_⟩
    refine ⟨_, rfl, ?_, ?_⟩
    · simp only [hlenw, footerBytes_length]
      omega
    · rw [wdata]
      have hsub : ((patchArrival (if env.posRefsOk then env.arrDetect else st.arrival) f).data ++
          footerBytes st.recordCount env.endTime).length - 16 =
          (patchArrival (if env.posRefsOk then env.arrDetect else st.arrival) f).data.length := by
        simp [footerBytes_length]
      rw [hsub]
      exact List.drop_left' rfl
  · -- no arrival: the footer is appended directly
    obtain ⟨wdata, wpos⟩ := fwrite_end f (footerBytes st.recordCount env.endTime) hpos
    have he : stopR env st =
        ({ st with arrival := if env.posRefsOk then env.arrDetect else st.arrival,
                   file := none,
                   disk := some (fwrite f (footerBytes st.recordCount env.endTime)),
                   bytesWritten := st.bytesWritten +
                     (footerBytes st.recordCount env.endTime).length,
                   isRecording := false }, true) := by
      cases hpr : env.posRefsOk <;> simp_all [stopR, hRec, hf, hFoot]
    rw [he]
    have hlenw : (fwrite f (footerBytes st.recordCount env.endTime)).data.length =
        f.data.length + 16 := by
      rw [wdata]
      simp [footerBytes_length]
    refine ⟨rfl, rfl, by simp [footerBytes_length], ?_⟩
    refine ⟨_, rfl, ?_, ?_⟩
    · simp only [hlenw, footerBytes_length]
      omega
    · rw [wdata]
      have hsub : (f.data ++ footerBytes st.recordCount env.endTime).length - 16 =
          f.data.length := by
        simp [footerBytes_length]
      rw [hsub]
      exact List.drop_left' rfl

/-! ## Claim C6 -/

/-- Claim C6 (confirmed): with auto mode on while Recording, (a) if the
auto-stop predicate holds on consecutive ticks whose accumulated `dt` stays
strictly below the configured stop delay and then becomes false, no `Stop()`
occurs on any of those ticks and the confirmation timer is reset to zero
with the engine still Recording; (b) if the predicate holds continuously
and the accumulated `dt` reaches the delay on the final tick, exactly one
`Stop()` is triggered on that tick and the engine leaves Recording. -/
theorem spec_C6 (codec : FVal → Nat) (cfg : RecCfg) (defs : List DatarefDef) :
    (∀ (ticks : List (ℚ × TickEnv)) (dt' : ℚ) (e' : TickEnv) (st0 : RecState),
      cfg.autoMode = true → st0.isRecording = true → st0.autoStopTimer = 0 →
      (∀ p ∈ ticks, p.2.autoStopSat = true ∧ p.2.timeRefOk = true ∧
        p.2.fileGood = true) →
      (∀ k, k ≤ ticks.length →
        ((ticks.take k).map Prod.fst).sum < cfg.autoStopDelay) →
      e'.autoStopSat = false → e'.timeRefOk = true → e'.fileGood = true →
      (runTicks codec cfg defs ticks st0).2 = 0 ∧
      (updateR codec cfg defs dt' e' (runTicks codec cfg defs ticks st0).1).2 = 0 ∧
      (updateR codec cfg defs dt' e'
        (runTicks codec cfg defs ticks st0).1).1.isRecording = true ∧
      (updateR codec cfg defs dt' e'
        (runTicks codec cfg defs ticks st0).1).1.autoStopTimer = 0) ∧
    (∀ (ticks : List (ℚ × TickEnv)) (dtN : ℚ) (eN : TickEnv) (st0 : RecState),
      cfg.autoMode = true → st0.isRecording = true → st0.autoStopTimer = 0 →
      (∀ p ∈ ticks, p.2.autoStopSat = true ∧ p.2.timeRefOk = true ∧
        p.2.fileGood = true) →
      (∀ k, k ≤ ticks.length →
        ((ticks.take k).map Prod.fst).sum < cfg.autoStopDelay) →
      eN.autoStopSat = true → eN.timeRefOk = true →
      cfg.autoStopDelay ≤ (ticks.map Prod.fst).sum + dtN →
      (runTicks codec cfg defs ticks st0).2 = 0 ∧
      (updateR codec cfg defs dtN eN (runTicks codec cfg defs ticks st0).1).2 = 1 ∧
      (updateR codec cfg defs dtN eN
        (runTicks codec cfg defs ticks st0).1).1.isRecording = false) := by
  constructor
  · intro ticks dt' e' st0 hAuto hRec hT0 hAll hSum hS hTi hG
    have hSum0 : ∀ k, k ≤ ticks.length →
        st0.autoStopTimer + ((ticks.take k).map Prod.fst).sum < cfg.autoStopDelay := by
      intro k hk
      rw [hT0]
      simpa using hSum k hk
    obtain ⟨r0, r1, r2⟩ := runTicks_noStop codec cfg defs hAuto ticks st0 hRec hAll hSum0
    obtain ⟨u0, u1, u2⟩ := updateR_stopUnsat codec cfg defs dt' e' _ hAuto r1 hS hTi hG
    exact ⟨r0, u0, u1, u2⟩
  · intro ticks dtN eN st0 hAuto hRec hT0 hAll hSum hS hTi hGe
    have hSum0 : ∀ k, k ≤ ticks.length →
        st0.autoStopTimer + ((ticks.take k).map Prod.fst).sum < cfg.autoStopDelay := by
      intro k hk
      rw [hT0]
      simpa using hSum k hk
    obtain ⟨r0, r1, r2⟩ := runTicks_noStop codec cfg defs hAuto ticks st0 hRec hAll hSum0
    have hGe' : cfg.autoStopDelay ≤
        (runTicks codec cfg defs ticks st0).1.autoStopTimer + dtN := by
      rw [r2, hT0]
      simpa using hGe
    obtain ⟨u0, u1⟩ := updateR_stopSat_stop codec cfg defs dtN eN _ hAuto r1 hS hTi hGe'
    exact ⟨r0, u0, u1⟩

/-- Witness for C6: delay 1 s; two satisfied ticks of 0.4 s then an
unsatisfied tick (no stop, timer reset); and a third satisfied 0.4 s tick
reaching 1.2 s ≥ 1 s (exactly one stop on that tick). -/
theorem spec_C6_witness :
    ((runTicks codec0 cfgAuto [] ticksA recR).2 = 0 ∧
     (updateR codec0 cfgAuto [] (2/5) tickBase (runTicks codec0 cfgAuto [] ticksA recR).1).2 = 0 ∧
     (updateR codec0 cfgAuto [] (2/5) tickBase
       (runTicks codec0 cfgAuto [] ticksA recR).1).1.isRecording = true ∧
     (updateR codec0 cfgAuto [] (2/5) tickBase
       (runTicks codec0 cfgAuto [] ticksA recR).1).1.autoStopTimer = 0) ∧
    ((runTicks codec0 cfgAuto [] ticksA recR).2 = 0 ∧
     (updateR codec0 cfgAuto [] (2/5) tickStopSat (runTicks codec0 cfgAuto [] ticksA recR).1).2 = 1 ∧
     (updateR codec0 cfgAuto [] (2/5) tickStopSat
       (runTicks codec0 cfgAuto [] ticksA recR).1).1.isRecording = false) :=
  ⟨(spec_C6 codec0 cfgAuto []).1 ticksA (2/5) tickBase recR rfl rfl rfl
      (by decide)
      (by
        intro k hk
        simp only [ticksA, List.length_cons, List.length_nil] at hk
        interval_cases k <;> norm_num [ticksA, cfgAuto, tickStopSat, tickBase])
      rfl rfl rfl,
   (spec_C6 codec0 cfgAuto []).2 ticksA (2/5) tickStopSat recR rfl rfl rfl
      (by decide)
      (by
        intro k hk
        simp only [ticksA, List.length_cons, List.length_nil] at hk
        interval_cases k <;> norm_num [ticksA, cfgAuto, tickStopSat, tickBase])
      rfl rfl
      (by norm_num [ticksA, cfgAuto, tickStopSat, tickBase])⟩

/-! ## Claim C10 -/

set_option maxRecDepth 8000 in
/-- Claim C10 (counterexample): a session with zero frames — `Start()`
writes a 565-byte header (empty registry), `Stop()` writes the 16-byte
footer — ends with the file holding 581 bytes on disk while
`GetBytesWritten()` reports 16: the byte counter does not include the
header, because `Start()` resets `m_bytesWritten` to 0 after the header is
written, contradicting the claim that it equals the total bytes written
including the header. -/
theorem spec_C10_counterexample :
    (stopR stopEnvOk (startR cfgManual [] startEnvOk rec0).1).1.bytesWritten = 16 ∧
    ((stopR stopEnvOk (startR cfgManual [] startEnvOk rec0).1).1.disk.map
      (fun f => f.data.length)) = some 581 := by
  exact ⟨rfl, rfl⟩

/-- Claim C10 (amended): throughout a healthy manual-mode session and after
`Stop()`, the cumulative byte counter exposed by `GetBytesWritten()` equals
the bytes written as frames plus (after `Stop()`) the footer — that is, the
file size minus the header size. The header's bytes are excluded because
`Start()` resets the counter to zero after writing the header. -/
theorem spec_C10_amended (codec : FVal → Nat) (cfg : RecCfg)
    (defs : List DatarefDef) (envS : StartEnv) (ticks : List (ℚ × TickEnv))
    (envT : StopEnv) (st0 : RecState)
    (hAuto : cfg.autoMode = false) (hIdle : st0.isRecording = false)
    (hS : envS.localtimeOk = true ∧ envS.openOk = true ∧
      envS.magicOk = true ∧ envS.headerOk = true)
    (hT : ∀ p ∈ ticks, p.2.fileGood = true)
    (hF : envT.footerGood = true) :
    ∃ hlen, 565 ≤ hlen ∧
      (startR cfg defs envS st0).1.bytesWritten = 0 ∧
      (∃ f1, (startR cfg defs envS st0).1.file = some f1 ∧
        f1.data.length = hlen) ∧
      (∃ f2, (runTicks codec cfg defs ticks (startR cfg defs envS st0).1).1.file = some f2 ∧
        f2.data.length = hlen +
          (runTicks codec cfg defs ticks (startR cfg defs envS st0).1).1.bytesWritten) ∧
      (∃ f3, (stopR envT (runTicks codec cfg defs ticks (startR cfg defs envS st0).1).1).1.disk = some f3 ∧
        f3.data.length = hlen +
          (stopR envT (runTicks codec cfg defs ticks (startR cfg defs envS st0).1).1).1.bytesWritten) := by
  obtain ⟨hl, ho, hm, hh⟩ := hS
  obtain ⟨s0, s1, s2, s3, s4, hlen, sInv⟩ :=
    startR_success cfg defs envS st0 hIdle hl ho hm hh
  obtain ⟨f1, hf1, hp1, hl1, hge1⟩ := sInv
  obtain ⟨rInv, rRec⟩ := runTicks_manual_SInv codec cfg defs hlen hAuto ticks
    (startR cfg defs envS st0).1 s1 hT ⟨f1, hf1, hp1, hl1, hge1⟩
  obtain ⟨f2, hf2, hp2, hl2, hge2⟩ := rInv
  obtain ⟨t0, t1, t2, f3, hf3, hl3, hsuf⟩ :=
    stopR_final envT _ hlen rRec ⟨f2, hf2, hp2, hl2, hge2⟩ hF
  refine ⟨hlen, hge1, s2, ⟨f1, hf1, ?_⟩, ⟨f2, hf2, hl2⟩, ⟨f3, hf3, hl3⟩⟩
  rw [hl1, s2]
  omega

/-- Witness for C10 (amended): the concrete zero-frame session. -/
theorem spec_C10_witness :
    ∃ hlen, 565 ≤ hlen ∧
      (startR cfgManual [] startEnvOk rec0).1.bytesWritten = 0 ∧
      (∃ f1, (startR cfgManual [] startEnvOk rec0).1.file = some f1 ∧
        f1.data.length = hlen) ∧
      (∃ f2, (runTicks codec0 cfgManual [] [] (startR cfgManual [] startEnvOk rec0).1).1.file = some f2 ∧
        f2.data.length = hlen +
          (runTicks codec0 cfgManual [] [] (startR cfgManual [] startEnvOk rec0).1).1.bytesWritten) ∧
      (∃ f3, (stopR stopEnvOk (runTicks codec0 cfgManual [] [] (startR cfgManual [] startEnvOk rec0).1).1).1.disk = some f3 ∧
        f3.data.length = hlen +
          (stopR stopEnvOk (runTicks codec0 cfgManual [] [] (startR cfgManual [] startEnvOk rec0).1).1).1.bytesWritten) :=
  spec_C10_amended codec0 cfgManual [] startEnvOk [] stopEnvOk rec0
    rfl rfl ⟨rfl, rfl, rfl, rfl⟩ (by simp) rfl

/-! ## Claim C8 -/

theorem recordFrame_eq (codec : FVal → Nat) (defs : List DatarefDef)
    (env : TickEnv) (st : RecState) (f : VFile)
    (hf : st.file = some f) (hg : env.fileGood = true) :
    recordFrame codec defs env st =
      ({ st with
          file := some (fwrite f (frameBytes codec defs env.timeRefOk env.simTime
            (readCurrentValues env.reads defs))),
          bytesWritten := st.bytesWritten + (frameBytes codec defs env.timeRefOk
            env.simTime (readCurrentValues env.reads defs)).length,
          recordCount := st.recordCount + 1,
          totalRecordTime := st.totalRecordTime + env.recordTime,
          perfSampleCount := st.perfSampleCount + 1,
          averageRecordTime := (st.totalRecordTime + env.recordTime) /
            ((st.perfSampleCount + 1 : Nat) : ℚ),
          maxRecordTime := max st.maxRecordTime env.recordTime }, 0) := by
  simp [recordFrame, hf, hg]

theorem updateR_manual_record_eq (codec : FVal → Nat) (cfg : RecCfg)
    (defs : List DatarefDef) (dt : ℚ) (env : TickEnv) (st : RecState)
    (hAuto : cfg.autoMode = false) (hRec : st.isRecording = true)
    (hTime : env.timeRefOk = true)
    (hi : cfg.interval ≤ env.simTime - st.lastRecordTime) :
    updateR codec cfg defs dt env st =
      ({ (recordFrame codec defs env { st with lastUpdateTime := env.simTime }).1
          with lastRecordTime := env.simTime },
        (recordFrame codec defs env { st with lastUpdateTime := env.simTime }).2) := by
  simp [updateR, autoStartStep, autoStopStep, recordStep, hRec, hAuto, hTime, hi]

/-- A manual-mode run in which every tick passes the interval test records
exactly one frame per tick: the record counter advances by the number of
ticks and the byte counter by the total size of the frames. -/
theorem runTicks_manual_record (codec : FVal → Nat) (cfg : RecCfg)
    (defs : List DatarefDef) (hAuto : cfg.autoMode = false) :
    ∀ (ticks : List (ℚ × TickEnv)) (st : RecState) (f : VFile),
      st.isRecording = true → st.file = some f →
      (∀ p ∈ ticks, p.2.timeRefOk = true ∧ p.2.fileGood = true) →
      AllRecord cfg st.lastRecordTime ticks →
      (runTicks codec cfg defs ticks st).2 = 0 ∧
      (runTicks codec cfg defs ticks st).1.recordCount =
        st.recordCount + ticks.length ∧
      (runTicks codec cfg defs ticks st).1.bytesWritten =
        st.bytesWritten + frameLenSum codec defs ticks := by
  intro ticks
  induction ticks with
  | nil =>
    intro st f h1 _ _ _
    simp [runTicks, frameLenSum]
  | cons p rest ih =>
    obtain ⟨dt, e⟩ := p
    intro st f hRec hf hAll hAR
    obtain ⟨hTime, hGood⟩ := hAll (dt, e) (by simp)
    obtain ⟨hi, hAR'⟩ := hAR
    have he := updateR_manual_record_eq codec cfg defs dt e st hAuto hRec hTime hi
    have hre := recordFrame_eq codec defs e
      { st with lastUpdateTime := e.simTime } f (by simp [hf]) hGood
    obtain ⟨r0, r1, r2⟩ := ih (updateR codec cfg defs dt e st).1
      (fwrite f (frameBytes codec defs e.timeRefOk e.simTime
        (readCurrentValues e.reads defs)))
      (by rw [he, hre]; simp [hRec])
      (by rw [he, hre])
      (fun q hq => hAll q (by simp [hq]))
      (by rw [he, hre]; simpa using hAR')
    refine ⟨?_, ?_, ?_⟩
    · simp only [runTicks]
      rw [r0, he, hre]
    · simp only [runTicks]
      rw [r1, he, hre]
      simp only [List.length_cons]
      omega
    · simp only [runTicks]
      rw [r2, he, hre]
      simp only [frameLenSum]
      omega

set_option maxRecDepth 40000 in
set_option maxHeartbeats 1600000 in
/-- Claim C8 (confirmed): at Basic level with a 0.25 s recording interval,
starting a session and advancing the simulated clock by 0.25 s on each of
10 consecutive ticks while Recording records exactly 10 frames (the record
counter reaches 10, with no internal `Stop()`), writes 10 frames' worth of
bytes (1060 = 10 × 106 for the Basic registry under these host reads), and
`Stop()` writes a footer whose recordCount field encodes 10. -/
theorem spec_C8 (codec : FVal → Nat) :
    (startR cfgManual defsBasic startEnvOk rec0).2 = true ∧
    (runTicks codec cfgManual defsBasic ticks10
      (startR cfgManual defsBasic startEnvOk rec0).1).2 = 0 ∧
    (runTicks codec cfgManual defsBasic ticks10
      (startR cfgManual defsBasic startEnvOk rec0).1).1.recordCount = 10 ∧
    (runTicks codec cfgManual defsBasic ticks10
      (startR cfgManual defsBasic startEnvOk rec0).1).1.bytesWritten = 1060 ∧
    (stopR stopEnvOk (runTicks codec cfgManual defsBasic ticks10
      (startR cfgManual defsBasic startEnvOk rec0).1).1).1.recordCount = 10 ∧
    ∃ f, (stopR stopEnvOk (runTicks codec cfgManual defsBasic ticks10
        (startR cfgManual defsBasic startEnvOk rec0).1).1).1.disk = some f ∧
      f.data.drop (f.data.length - 16) = footerBytes 10 stopEnvOk.endTime := by
  obtain ⟨s0, s1, s2, s3, s4, hlen, sInv⟩ :=
    startR_success cfgManual defsBasic startEnvOk rec0 rfl rfl rfl rfl rfl
  obtain ⟨f1, hf1, hp1, hl1, hge1⟩ := sInv
  have hall : ∀ p ∈ ticks10, p.2.timeRefOk = true ∧ p.2.fileGood = true := by
    decide
  have har : AllRecord cfgManual
      (startR cfgManual defsBasic startEnvOk rec0).1.lastRecordTime ticks10 := by
    rw [s4]
    norm_num [AllRecord, ticks10, cfgManual, tickBase]
  obtain ⟨r0, rc, rb⟩ := runTicks_manual_record codec cfgManual defsBasic rfl
    ticks10 (startR cfgManual defsBasic startEnvOk rec0).1 f1 s1 hf1 hall har
  have hcnt : (runTicks codec cfgManual defsBasic ticks10
      (startR cfgManual defsBasic startEnvOk rec0).1).1.recordCount = 10 := by
    rw [rc, s3]
    rfl
  have hbytes : (runTicks codec cfgManual defsBasic ticks10
      (startR cfgManual defsBasic startEnvOk rec0).1).1.bytesWritten = 1060 := by
    rw [rb, s2]
    rfl
  obtain ⟨rInv, rRec⟩ := runTicks_manual_SInv codec cfgManual defsBasic hlen rfl
    ticks10 (startR cfgManual defsBasic startEnvOk rec0).1 s1
    (fun p hp => (hall p hp).2) ⟨f1, hf1, hp1, hl1, hge1⟩
  obtain ⟨t0, t1, t2, f3, hf3, hl3, hsuf⟩ :=
    stopR_final stopEnvOk _ hlen rRec rInv rfl
  refine ⟨s0, r0, hcnt, hbytes, ?_, ⟨f3, hf3, ?_⟩⟩
  · rw [t1, hcnt]
  · rw [hsuf, hcnt]

end XBlackBox
